import Mathlib

/-!
Free-look camera of the cube programs (camera.go, lightBasic.go, lightColor.go)

A shallow embedding of the camera/input code and the render loop of
`camera.go`, of the start-up error handling of the three `main` functions, and
of the cube meshes with their attribute pointers and draw calls.

Conventions of the embedding:

* Go's `float32`/`float64` values are read as elements of a field `R`
  (exact arithmetic); the conversions `float32(..)` and `float64(..)` are the
  identity.  Theorems on the camera are stated at `R = ℝ`; the vertex tables
  are evaluated at `R = ℚ`.
* The functions of Go's `math` package that the code calls (`Cos`, `Sin`,
  `Sqrt`, `Pi`) are collected in a record `GoMath R` passed explicitly, so all
  definitions stay executable; the theorems instantiate it with `Real.cos`,
  `Real.sin`, `Real.sqrt`.
* For the constant `Pi` the theorems that hold whatever its value, or that
  only spell out the formula, take `Real.pi`. The theorems whose truth depends
  on the value (whether a cosine is exactly zero) take `Pi32`, the value of
  `float32(math.Pi)` that `mgl32.DegToRad` multiplies by, and cursor
  coordinates that are rational, as every `float64` is: at such angles the
  cosine is never zero, because π is irrational.
* The package-level variables of `camera.go` form the record `Globals R`; a
  Go function that mutates them is a function `Globals R → Globals R`.
* `glfw.Window` is reduced to what the handlers query: which keys and which
  mouse buttons are currently held.
* `mgl32.Mat4` keeps its sixteen column-major components; `Mat4.toMatrix`
  reads them as rows and columns.
-/

namespace OpenGLGo

/-! ## Go `math` and `mgl32` -/

/-- Functions and constants of Go's `math` package used by the programs. -/
structure GoMath (R : Type) where
  /-- Go `math.Cos` -/
  Cos : R → R
  /-- Go `math.Sin` -/
  Sin : R → R
  /-- Go `math.Sqrt` -/
  Sqrt : R → R
  /-- The constant the degree conversion multiplies by: Go `math.Pi`, which
  `mgl32.DegToRad` takes as `float32(math.Pi)` -/
  Pi : R

/-- Type `mgl32.Vec3`: three components. -/
@[ext]
structure Vec3 (R : Type) where
  x : R
  y : R
  z : R
deriving DecidableEq, Repr

namespace Vec3

variable {R : Type} [Field R]

/-- Method `mgl32.Vec3.Add`: componentwise sum. -/
def Add (v1 v2 : Vec3 R) : Vec3 R :=
  ⟨v1.x + v2.x, v1.y + v2.y, v1.z + v2.z⟩

/-- Method `mgl32.Vec3.Sub`: componentwise difference. -/
def Sub (v1 v2 : Vec3 R) : Vec3 R :=
  ⟨v1.x - v2.x, v1.y - v2.y, v1.z - v2.z⟩

/-- Method `mgl32.Vec3.Mul`: product with a scalar. -/
def Mul (v1 : Vec3 R) (c : R) : Vec3 R :=
  ⟨v1.x * c, v1.y * c, v1.z * c⟩

/-- Method `mgl32.Vec3.Dot`: inner product. -/
def Dot (v1 v2 : Vec3 R) : R :=
  v1.x * v2.x + v1.y * v2.y + v1.z * v2.z

/-- Method `mgl32.Vec3.Cross`: cross product. -/
def Cross (v1 v2 : Vec3 R) : Vec3 R :=
  ⟨v1.y * v2.z - v1.z * v2.y, v1.z * v2.x - v1.x * v2.z, v1.x * v2.y - v1.y * v2.x⟩

/-- Method `mgl32.Vec3.Len`: `Sqrt(x*x + y*y + z*z)`. -/
def Len (m : GoMath R) (v1 : Vec3 R) : R :=
  m.Sqrt (v1.x * v1.x + v1.y * v1.y + v1.z * v1.z)

/-- Method `mgl32.Vec3.Normalize`: `l := 1.0 / v1.Len()`, then every component
times `l`.  At a vector of length zero Go divides by zero and returns
non-numbers; here `1 / 0 = 0` and the result is the zero vector. In both
readings the result is not a unit vector. -/
def Normalize (m : GoMath R) (v1 : Vec3 R) : Vec3 R :=
  let l := 1 / v1.Len m
  ⟨v1.x * l, v1.y * l, v1.z * l⟩

end Vec3

/-- Function `mgl32.DegToRad`: `angle * float32(math.Pi) / 180`, with the
constant taken from the record. -/
def DegToRad {R : Type} [Field R] (m : GoMath R) (angle : R) : R :=
  angle * m.Pi / 180

/-! ## The window as seen by the input handlers -/

/-- Type `glfw.Action`. -/
inductive Action where
  | Release
  | Press
  | Repeat
deriving DecidableEq, Repr

/-- Keys queried by `processInput`. -/
inductive Key where
  | KeyW
  | KeyS
  | KeyA
  | KeyD
deriving DecidableEq, Repr

/-- Mouse buttons of `glfw`. -/
inductive MouseButton where
  | MouseButtonLeft
  | MouseButtonRight
  | MouseButtonMiddle
deriving DecidableEq, Repr

/-- The input state of a `glfw.Window`: the keys and buttons held down. -/
structure Window where
  keyDown : Key → Bool
  buttonDown : MouseButton → Bool

/-- Method `glfw.Window.GetKey`: the last state reported for the key, `Press`
or `Release`. -/
def Window.GetKey (win : Window) (k : Key) : Action :=
  if win.keyDown k then Action.Press else Action.Release

/-- Method `glfw.Window.GetMouseButton`: the last state reported for the
button, `Press` or `Release`. -/
def Window.GetMouseButton (w : Window) (b : MouseButton) : Action :=
  if w.buttonDown b then Action.Press else Action.Release

/-! ## Package-level state of camera.go -/

/-- The package-level variables of `camera.go`. -/
structure Globals (R : Type) where
  cameraPos : Vec3 R
  cameraFront : Vec3 R
  cameraUp : Vec3 R
  deltaTime : R
  lastFrame : R
  yaw : R
  pitch : R
  lastX : R
  lastY : R
  firstMouse : Bool

/-- The initial values of the package-level variables (`var (...)` blocks of
`camera.go`; `lastX`, `lastY`, `firstMouse` are zero-valued). -/
def initGlobals {R : Type} [Field R] : Globals R where
  cameraPos := ⟨0, 0, 3⟩
  cameraFront := ⟨0, 0, -1⟩
  cameraUp := ⟨0, 1, 0⟩
  deltaTime := 0
  lastFrame := 0
  yaw := -90
  pitch := 0
  lastX := 0
  lastY := 0
  firstMouse := false

/-! ## The input handlers -/

section Handlers

variable {R : Type} [Field R]

/-- Function `processInput` of `camera.go`. -/
def processInput (m : GoMath R) (win : Window) (g : Globals R) : Globals R :=
  let cameraSpeed : R := 2.5 * g.deltaTime
  let g1 :=
    if win.GetKey Key.KeyW = Action.Press then
      { g with cameraPos := g.cameraPos.Add (g.cameraFront.Mul cameraSpeed) }
    else g
  let g2 :=
    if win.GetKey Key.KeyS = Action.Press then
      { g1 with cameraPos := g1.cameraPos.Sub (g1.cameraFront.Mul cameraSpeed) }
    else g1
  let g3 :=
    if win.GetKey Key.KeyA = Action.Press then
      let cameraRight := (g2.cameraFront.Cross g2.cameraUp).Normalize m
      { g2 with cameraPos := g2.cameraPos.Add (cameraRight.Mul cameraSpeed) }
    else g2
  let g4 :=
    if win.GetKey Key.KeyD = Action.Press then
      let cameraRight := (g3.cameraFront.Cross g3.cameraUp).Normalize m
      { g3 with cameraPos := g3.cameraPos.Sub (cameraRight.Mul cameraSpeed) }
    else g3
  g4

/-- The vector built from `yaw` and `pitch` in `mouseMoveCallback` before it
is normalised (the locals `x`, `y`, `z`). -/
def frontRaw (m : GoMath R) (yaw pitch : R) : Vec3 R :=
  let x := m.Cos (DegToRad m yaw) * m.Cos (DegToRad m pitch)
  let y := m.Sin (DegToRad m pitch)
  let z := m.Sin (DegToRad m yaw) * m.Cos (DegToRad m pitch)
  ⟨x, y, z⟩

/-- Function `mouseMoveCallback` of `camera.go`. -/
def mouseMoveCallback (m : GoMath R) (w : Window) (xpos ypos : R) (g : Globals R) :
    Globals R :=
  let sensitivity : R := 0.1
  if w.GetMouseButton MouseButton.MouseButtonLeft = Action.Press then
    let g1 :=
      if g.firstMouse then
        { g with lastX := xpos, lastY := ypos, firstMouse := false }
      else g
    let xoffset := xpos - g1.lastX
    let yoffset := g1.lastY - ypos
    let g2 := { g1 with lastX := xpos, lastY := ypos }
    let xoffset := xoffset * sensitivity
    let yoffset := yoffset * sensitivity
    let g3 := { g2 with yaw := g2.yaw + xoffset }
    let g4 := { g3 with pitch := g3.pitch + yoffset }
    { g4 with cameraFront := (frontRaw m g4.yaw g4.pitch).Normalize m }
  else if w.GetMouseButton MouseButton.MouseButtonLeft = Action.Release then
    { g with firstMouse := true }
  else g

/-- A cursor-position event: the window's input state when the callback runs
and the cursor coordinates passed to it. -/
structure CursorEvent (R : Type) where
  w : Window
  xpos : R
  ypos : R

/-- The globals after `mouseMoveCallback` has handled the events in order. -/
def handleCursorEvents (m : GoMath R) (g : Globals R) : List (CursorEvent R) → Globals R
  | [] => g
  | e :: es => handleCursorEvents m (mouseMoveCallback m e.w e.xpos e.ypos g) es

end Handlers

/-- Window input state with the given left-button state and no key held. -/
def mouseWindow (left : Bool) : Window where
  keyDown := fun _ => false
  buttonDown := fun b => b = MouseButton.MouseButtonLeft && left

/-- Window input state with the given W, S, A, D key states and no button held. -/
def keyWindow (kw ks ka kd : Bool) : Window where
  keyDown := fun k =>
    match k with
    | Key.KeyW => kw
    | Key.KeyS => ks
    | Key.KeyA => ka
    | Key.KeyD => kd
  buttonDown := fun _ => false

/-- The strafe vector `cameraRight` that `processInput` computes for the A and
D keys: `cameraFront.Cross(cameraUp).Normalize()`. -/
def cameraRight {R : Type} [Field R] (m : GoMath R) (g : Globals R) : Vec3 R :=
  (g.cameraFront.Cross g.cameraUp).Normalize m

/-! ## Keyboard update in the words of the specification -/

section KeyboardSpec

variable {R : Type} [Field R]

/-- The position after one key's move, in the words of the specification:
with `speed = 2.5 * deltaTime` and `right = normalize(front x up)`, W adds
`front * speed`, S subtracts it, A adds `right * speed`, D subtracts it. -/
def keyMove (m : GoMath R) (g : Globals R) (pos : Vec3 R) : Key → Vec3 R
  | Key.KeyW => pos.Add (g.cameraFront.Mul (2.5 * g.deltaTime))
  | Key.KeyS => pos.Sub (g.cameraFront.Mul (2.5 * g.deltaTime))
  | Key.KeyA => pos.Add ((cameraRight m g).Mul (2.5 * g.deltaTime))
  | Key.KeyD => pos.Sub ((cameraRight m g).Mul (2.5 * g.deltaTime))

/-- The keyboard update in the words of the specification: the moves of the
keys currently pressed, applied in the order W, S, A, D. -/
def keyboardSpec (m : GoMath R) (pressed : Key → Bool) (g : Globals R) : Vec3 R :=
  [Key.KeyW, Key.KeyS, Key.KeyA, Key.KeyD].foldl
    (fun pos k => if pressed k then keyMove m g pos k else pos) g.cameraPos

end KeyboardSpec

/-! ## Start-up of the three programs -/

/-- A Go `error` value: `none` is `nil`, `some msg` an error with that text. -/
abbrev GoError := Option String

/-- The shader sources the programs pass to `newProgram`. -/
inductive Shader where
  | vertexShader
  | fragmentShader
  | lightFragmentShader
deriving DecidableEq, Repr

/-- A decoded image: the size of its bounds. -/
structure Image where
  width : Nat
  height : Nat
deriving DecidableEq, Repr

/-- Type `image.RGBA` as far as `newTexture` reads it: the stride and the
size of the rectangle. -/
structure RGBA where
  Stride : Nat
  width : Nat
  height : Nat
deriving DecidableEq, Repr

/-- Function `image.NewRGBA`: an image of the given bounds with four bytes a
pixel. -/
def NewRGBA (img : Image) : RGBA :=
  ⟨4 * img.width, img.width, img.height⟩

/-- What the outside world answers to the calls `main` makes before its
render loop: the window system, the graphics driver and the file system. -/
structure Env where
  /-- Result of `glfw.Init()` -/
  glfwInit : GoError
  /-- Error result of `glfw.CreateWindow(..)` -/
  createWindow : GoError
  /-- Result of `gl.Init()` -/
  glInit : GoError
  /-- Result of `newProgram(vs, fs)`: program name and error -/
  newProgram : Shader → Shader → Nat × GoError
  /-- Result of `os.Open(file)`: a file handle or an error -/
  osOpen : String → Except String Nat
  /-- Result of `image.Decode(imgFile)`: an image or an error -/
  imageDecode : Nat → Except String Image
  /-- Texture name that `gl.GenTextures` hands out for an upload of the file -/
  genTextures : String → Nat

/-- Function `newTexture` (the same text in the three programs): the texture
name and the error it returns. -/
def newTexture (env : Env) (file : String) : Nat × GoError :=
  match env.osOpen file with
  | Except.error err =>
    (0, some ("texture \"" ++ file ++ "\" not found on disk: " ++ err))
  | Except.ok imgFile =>
    match env.imageDecode imgFile with
    | Except.error err => (0, some err)
    | Except.ok img =>
      let rgba := NewRGBA img
      if rgba.Stride ≠ rgba.width * 4 then
        (0, some "unsupported stride")
      else
        (env.genTextures file, none)

/-- How far a run of `main` gets. -/
inductive Startup where
  /-- A `log.Fatalln(..)` call: the message is logged and the process exits -/
  | fatal (msg : String)
  /-- A `panic(err)` call -/
  | panicked (msg : String)
  /-- The loop `for !window.ShouldClose()` is entered, with these texture
  names bound in it -/
  | renderLoop (textures : List Nat)
deriving DecidableEq, Repr

/-- Whether the run ends in `log.Fatalln`, before the render loop. -/
def Startup.isFatal : Startup → Bool
  | Startup.fatal _ => true
  | _ => false

/-- Whether the run enters the render loop. -/
def Startup.entersRenderLoop : Startup → Bool
  | Startup.renderLoop _ => true
  | _ => false

namespace Camera

/-- Function `main` of `camera.go`, up to the entry of its render loop. -/
def main (env : Env) : Startup :=
  match env.glfwInit with
  | some err => Startup.fatal ("failed to initialize glfw: " ++ err)
  | none =>
  match env.createWindow with
  | some err => Startup.panicked err
  | none =>
  match env.glInit with
  | some err => Startup.panicked err
  | none =>
  let (_program, err) := env.newProgram Shader.vertexShader Shader.fragmentShader
  match err with
  | some err => Startup.panicked err
  | none =>
  let (texture, err) := newTexture env "square.png"
  match err with
  | some err => Startup.fatal err
  | none => Startup.renderLoop [texture]

end Camera

namespace LightBasic

/-- Function `main` of `lightBasic.go`, up to the entry of its render loop. -/
def main (env : Env) : Startup :=
  match env.glfwInit with
  | some err => Startup.fatal ("failed to initialize glfw: " ++ err)
  | none =>
  match env.createWindow with
  | some err => Startup.panicked err
  | none =>
  match env.glInit with
  | some err => Startup.panicked err
  | none =>
  let (_program, err) := env.newProgram Shader.vertexShader Shader.fragmentShader
  match err with
  | some err => Startup.panicked err
  | none =>
  let (_programLight, err) := env.newProgram Shader.vertexShader Shader.lightFragmentShader
  match err with
  | some err => Startup.panicked err
  | none =>
  let (texture2, err) := newTexture env "square2.png"
  match err with
  | some err => Startup.fatal err
  | none => Startup.renderLoop [texture2]

end LightBasic

namespace LightColor

/-- Function `main` of `lightColor.go`, up to the entry of its render loop.
The error of the first `newTexture` call is assigned to `err` and overwritten
by the second call before `err` is tested. -/
def main (env : Env) : Startup :=
  match env.glfwInit with
  | some err => Startup.fatal ("failed to initialize glfw: " ++ err)
  | none =>
  match env.createWindow with
  | some err => Startup.panicked err
  | none =>
  match env.glInit with
  | some err => Startup.panicked err
  | none =>
  let (_program, err) := env.newProgram Shader.vertexShader Shader.fragmentShader
  match err with
  | some err => Startup.panicked err
  | none =>
  let (_programLight, err) := env.newProgram Shader.vertexShader Shader.lightFragmentShader
  match err with
  | some err => Startup.panicked err
  | none =>
  let (texture, _err) := newTexture env "square.png"
  let (texture2, err) := newTexture env "square2.png"
  match err with
  | some err => Startup.fatal err
  | none => Startup.renderLoop [texture, texture2]

end LightColor

/-- An environment in which everything succeeds except that `square.png`
cannot be opened. -/
def envMissingSquare : Env where
  glfwInit := none
  createWindow := none
  glInit := none
  newProgram := fun _ fs => (if fs = Shader.fragmentShader then 1 else 2, none)
  osOpen := fun file =>
    if file = "square.png" then Except.error "open square.png: no such file or directory"
    else Except.ok 3
  imageDecode := fun _ => Except.ok ⟨64, 64⟩
  genTextures := fun _ => 1

/-! ## Matrices of `mgl32` -/

/-- Type `mgl32.Mat4`: sixteen components `m[0]` to `m[15]` in column-major
order, so that component `c * 4 + r` is the entry in row `r` and column `c`. -/
@[ext]
structure Mat4 (R : Type) where
  m0 : R
  m1 : R
  m2 : R
  m3 : R
  m4 : R
  m5 : R
  m6 : R
  m7 : R
  m8 : R
  m9 : R
  m10 : R
  m11 : R
  m12 : R
  m13 : R
  m14 : R
  m15 : R

section Matrices

variable {R : Type} [Field R]

/-- Function `mgl32.Ident4`. -/
def Ident4 : Mat4 R :=
  ⟨1, 0, 0, 0, 0, 1, 0, 0, 0, 0, 1, 0, 0, 0, 0, 1⟩

/-- Function `mgl32.Translate3D`. -/
def Translate3D (Tx Ty Tz : R) : Mat4 R :=
  ⟨1, 0, 0, 0, 0, 1, 0, 0, 0, 0, 1, 0, Tx, Ty, Tz, 1⟩

/-- Function `mgl32.HomogRotate3D`: the rotation by `angle` (in radians, as
`math.Sin` and `math.Cos` take it) about `axis`. -/
def HomogRotate3D (m : GoMath R) (angle : R) (axis : Vec3 R) : Mat4 R :=
  let x := axis.x
  let y := axis.y
  let z := axis.z
  let s := m.Sin angle
  let c := m.Cos angle
  let k := 1 - c
  ⟨x * x * k + c, x * y * k + z * s, x * z * k - y * s, 0,
    x * y * k - z * s, y * y * k + c, y * z * k + x * s, 0,
    x * z * k + y * s, y * z * k - x * s, z * z * k + c, 0,
    0, 0, 0, 1⟩

/-- Method `mgl32.Mat4.Mul4`. -/
def Mul4 (m1 m2 : Mat4 R) : Mat4 R :=
  ⟨m1.m0 * m2.m0 + m1.m4 * m2.m1 + m1.m8 * m2.m2 + m1.m12 * m2.m3,
    m1.m1 * m2.m0 + m1.m5 * m2.m1 + m1.m9 * m2.m2 + m1.m13 * m2.m3,
    m1.m2 * m2.m0 + m1.m6 * m2.m1 + m1.m10 * m2.m2 + m1.m14 * m2.m3,
    m1.m3 * m2.m0 + m1.m7 * m2.m1 + m1.m11 * m2.m2 + m1.m15 * m2.m3,
    m1.m0 * m2.m4 + m1.m4 * m2.m5 + m1.m8 * m2.m6 + m1.m12 * m2.m7,
    m1.m1 * m2.m4 + m1.m5 * m2.m5 + m1.m9 * m2.m6 + m1.m13 * m2.m7,
    m1.m2 * m2.m4 + m1.m6 * m2.m5 + m1.m10 * m2.m6 + m1.m14 * m2.m7,
    m1.m3 * m2.m4 + m1.m7 * m2.m5 + m1.m11 * m2.m6 + m1.m15 * m2.m7,
    m1.m0 * m2.m8 + m1.m4 * m2.m9 + m1.m8 * m2.m10 + m1.m12 * m2.m11,
    m1.m1 * m2.m8 + m1.m5 * m2.m9 + m1.m9 * m2.m10 + m1.m13 * m2.m11,
    m1.m2 * m2.m8 + m1.m6 * m2.m9 + m1.m10 * m2.m10 + m1.m14 * m2.m11,
    m1.m3 * m2.m8 + m1.m7 * m2.m9 + m1.m11 * m2.m10 + m1.m15 * m2.m11,
    m1.m0 * m2.m12 + m1.m4 * m2.m13 + m1.m8 * m2.m14 + m1.m12 * m2.m15,
    m1.m1 * m2.m12 + m1.m5 * m2.m13 + m1.m9 * m2.m14 + m1.m13 * m2.m15,
    m1.m2 * m2.m12 + m1.m6 * m2.m13 + m1.m10 * m2.m14 + m1.m14 * m2.m15,
    m1.m3 * m2.m12 + m1.m7 * m2.m13 + m1.m11 * m2.m14 + m1.m15 * m2.m15⟩

/-- The rows-and-columns reading of a `Mat4`: entry `(r, c)` is component
`c * 4 + r`. -/
def Mat4.toMatrix (a : Mat4 R) : Matrix (Fin 4) (Fin 4) R :=
  !![a.m0, a.m4, a.m8, a.m12;
     a.m1, a.m5, a.m9, a.m13;
     a.m2, a.m6, a.m10, a.m14;
     a.m3, a.m7, a.m11, a.m15]

/-- The rotation about the Y axis in the words of the specification, as a
matrix of rows and columns. -/
def RotationAboutY (m : GoMath R) (angle : R) : Matrix (Fin 4) (Fin 4) R :=
  !![m.Cos angle, 0, m.Sin angle, 0;
     0, 1, 0, 0;
     -m.Sin angle, 0, m.Cos angle, 0;
     0, 0, 0, 1]

/-- The translation by an offset in the words of the specification, as a
matrix of rows and columns. -/
def Translation (x y z : R) : Matrix (Fin 4) (Fin 4) R :=
  !![1, 0, 0, x;
     0, 1, 0, y;
     0, 0, 1, z;
     0, 0, 0, 1]

end Matrices

/-! ## The render loop of camera.go -/

namespace Camera

section Loop

variable {R : Type} [Field R]

/-- The slice `cubePositions` of `camera.go`. -/
def cubePositions : List (List R) :=
  [
    [0.0, 0.0, 0.0],
    [2.0, 5.0, -15.0],
    [-1.5, -2.2, -2.5],
    [-3.8, -2.0, -12.0],
    [2.4, -0.4, -3.5],
    [-1.7, 3.0, -7.5],
    [1.3, -2.0, -2.5],
    [1.5, 2.0, -2.5],
    [1.5, 0.2, -1.5],
    [-1.3, 1.0, -1.5]
  ]

/-- The body of `for i, each := range cubePositions` in `main`: the model
matrix uploaded for entry `i`; `none` stands for an index out of range in
`each[0]`, `each[1]`, `each[2]`. -/
def modelMatrix (m : GoMath R) (i : Nat) (each : List R) : Option (Mat4 R) :=
  match each.get? 0, each.get? 1, each.get? 2 with
  | some e0, some e1, some e2 =>
    let model_t := Translate3D e0 e1 e2
    let model_r := HomogRotate3D m ((i : R) * 20) ⟨0, 1, 0⟩
    some (Mul4 model_r model_t)
  | _, _, _ => none

/-- The model matrices one iteration of the render loop uploads, in order. -/
def modelMatrices (m : GoMath R) : List (Option (Mat4 R)) :=
  (cubePositions : List (List R)).enum.map fun p => modelMatrix m p.1 p.2

/-- What one iteration of the render loop reads from outside: the two clock
readings, the keys held when `processInput` runs and the cursor events that
`glfw.PollEvents` dispatches to `mouseMoveCallback`. -/
structure Frame (R : Type) where
  /-- The reading `time := glfw.GetTime()` at the start of the iteration -/
  time : R
  /-- The window's input state during `processInput(window)` -/
  win : Window
  /-- The reading `currentFrame := glfw.GetTime()` after the draw calls -/
  currentFrame : R
  /-- The cursor events dispatched by `glfw.PollEvents()` -/
  events : List (CursorEvent R)

/-- The state carried from one iteration of the render loop to the next: the
package-level variables and the locals `angle`, `previousTime` of `main`. -/
structure LoopState (R : Type) where
  g : Globals R
  angle : R
  previousTime : R

/-- The state in which the render loop is entered: the initial globals,
`angle := 0.0` and `previousTime := glfw.GetTime()`. -/
def initLoopState (t0 : R) : LoopState R where
  g := initGlobals
  angle := 0
  previousTime := t0

/-- One iteration of the loop `for !window.ShouldClose()` of `main`, in the
order of the source: the `elapsed`/`angle` update, `processInput(window)`, the
view matrix and the draw calls (which write no variable), then
`deltaTime = currentFrame - lastFrame` and `lastFrame = currentFrame`, then
`glfw.PollEvents()`. -/
def renderIteration (m : GoMath R) (fr : Frame R) (s : LoopState R) : LoopState R :=
  let time := fr.time
  let elapsed := time - s.previousTime
  let previousTime := time
  let angle := s.angle + elapsed
  let g1 := processInput m fr.win s.g
  let currentFrame := fr.currentFrame
  let g2 := { g1 with deltaTime := currentFrame - g1.lastFrame }
  let g3 := { g2 with lastFrame := currentFrame }
  let g4 := handleCursorEvents m g3 fr.events
  { g := g4, angle := angle, previousTime := previousTime }

/-- The arguments `cameraPos`, `cameraPos.Add(cameraFront)`, `cameraUp` that an
iteration entered in state `s` passes to `mgl32.LookAtV` for its view matrix. -/
def viewArguments (m : GoMath R) (fr : Frame R) (s : LoopState R) :
    Vec3 R × Vec3 R × Vec3 R :=
  let g1 := processInput m fr.win s.g
  (g1.cameraPos, g1.cameraPos.Add g1.cameraFront, g1.cameraUp)

/-- The value of the local `cameraSpeed` in the `processInput(window)` call of
an iteration entered in state `s`: `2.5 * deltaTime` at that moment. -/
def iterationSpeed (s : LoopState R) : R :=
  2.5 * s.g.deltaTime

/-- The state after the iterations for the given frames, in order. -/
def runLoop (m : GoMath R) (s : LoopState R) : List (Frame R) → LoopState R
  | [] => s
  | fr :: frs => runLoop m (renderIteration m fr s) frs

end Loop

end Camera

/-! ## The cube meshes and their draw calls -/

/-- The arguments of a `gl.VertexAttribPointer` call that the claims use: the
number of float components, and stride and offset in bytes. -/
structure AttribPointer where
  size : Nat
  stride : Nat
  offset : Nat
deriving DecidableEq, Repr

/-- The arguments `first`, `count` of a `gl.DrawArrays(gl.TRIANGLES, ..)` call. -/
structure DrawCall where
  first : Nat
  count : Nat
deriving DecidableEq, Repr

/-- The vertex set-up of a program: the byte size passed to `gl.BufferData`,
the attribute pointers of its vertex arrays and the draw calls of its loop. -/
structure Mesh where
  bufferBytes : Nat
  attribs : List AttribPointer
  draws : List DrawCall
deriving DecidableEq, Repr

/-- Whether the attribute lies inside one stride. -/
def AttribPointer.fitsStride (a : AttribPointer) : Bool :=
  a.offset + a.size * 4 ≤ a.stride

/-- Whether no vertex of any draw call reads an attribute past the end of the
buffer: for vertex `v` the bytes `offset + v * stride` up to
`offset + v * stride + size * 4` are read. -/
def Mesh.readsInBounds (mesh : Mesh) : Bool :=
  mesh.draws.all fun d =>
    mesh.attribs.all fun a =>
      (List.range d.count).all fun j =>
        a.offset + (d.first + j) * a.stride + a.size * 4 ≤ mesh.bufferBytes

/-- The attribute of vertex `v` as the vertex fetch reads it from a buffer of
floats: three floats starting at byte `offset + v * stride`. -/
def readVec3 {R : Type} [Field R] (buf : List R) (a : AttribPointer) (v : Nat) : Vec3 R :=
  let i := (a.offset + v * a.stride) / 4
  ⟨buf.getD i 0, buf.getD (i + 1) 0, buf.getD (i + 2) 0⟩

namespace Camera

/-- The slice `cubeVertices` of `camera.go`. -/
def cubeVertices {R : Type} [Field R] : List R :=
  [
    -- Bottom
    -0.5, -0.5, -0.5, 0.0, 0.0,
    0.5, -0.5, -0.5, 0.5, 0.0,
    -0.5, -0.5, 0.5, 0.0, 0.5,
    0.5, -0.5, -0.5, 0.5, 0.0,
    0.5, -0.5, 0.5, 0.5, 0.5,
    -0.5, -0.5, 0.5, 0.0, 0.5,
    -- Top
    -0.5, 0.5, -0.5, 0.0, 0.0,
    -0.5, 0.5, 0.5, 0.0, 0.5,
    0.5, 0.5, -0.5, 0.5, 0.0,
    0.5, 0.5, -0.5, 0.5, 0.0,
    -0.5, 0.5, 0.5, 0.0, 0.5,
    0.5, 0.5, 0.5, 0.5, 0.5,
    -- Front
    -0.5, -0.5, 0.5, 0.5, 0.0,
    0.5, -0.5, 0.5, 0.0, 0.0,
    -0.5, 0.5, 0.5, 0.5, 0.5,
    0.5, -0.5, 0.5, 0.0, 0.0,
    0.5, 0.5, 0.5, 0.0, 0.5,
    -0.5, 0.5, 0.5, 0.5, 0.5,
    -- Back
    -0.5, -0.5, -0.5, 0.0, 0.0,
    -0.5, 0.5, -0.5, 0.0, 0.5,
    0.5, -0.5, -0.5, 0.5, 0.0,
    0.5, -0.5, -0.5, 0.5, 0.0,
    -0.5, 0.5, -0.5, 0.0, 0.5,
    0.5, 0.5, -0.5, 0.5, 0.5,
    -- Left
    -0.5, -0.5, 0.5, 0.0, 0.5,
    -0.5, 0.5, -0.5, 0.5, 0.0,
    -0.5, -0.5, -0.5, 0.0, 0.0,
    -0.5, -0.5, 0.5, 0.0, 0.5,
    -0.5, 0.5, 0.5, 0.5, 0.5,
    -0.5, 0.5, -0.5, 0.5, 0.0,
    -- Right
    0.5, -0.5, 0.5, 0.5, 0.5,
    0.5, -0.5, -0.5, 0.5, 0.0,
    0.5, 0.5, -0.5, 0.0, 0.0,
    0.5, -0.5, 0.5, 0.5, 0.5,
    0.5, 0.5, -0.5, 0.0, 0.0,
    0.5, 0.5, 0.5, 0.0, 0.5
  ]

/-- The vertex set-up of `main` in `camera.go`. -/
def mesh : Mesh where
  bufferBytes := (cubeVertices : List ℚ).length * 4
  attribs := [⟨3, 5 * 4, 0⟩, ⟨2, 5 * 4, 3 * 4⟩]
  draws := [⟨0, 6 * 2 * 3⟩]

end Camera

namespace LightColor

/-- The slice `cubeVertices` of `lightColor.go`. -/
def cubeVertices {R : Type} [Field R] : List R :=
  [
    -- X, Y, Z, U, V
    -- Bottom
    -1.0, -1.0, -1.0, 0.0, 0.0,
    1.0, -1.0, -1.0, 1.0, 0.0,
    -1.0, -1.0, 1.0, 0.0, 1.0,
    1.0, -1.0, -1.0, 1.0, 0.0,
    1.0, -1.0, 1.0, 1.0, 1.0,
    -1.0, -1.0, 1.0, 0.0, 1.0,
    -- Top
    -1.0, 1.0, -1.0, 0.0, 0.0,
    -1.0, 1.0, 1.0, 0.0, 1.0,
    1.0, 1.0, -1.0, 1.0, 0.0,
    1.0, 1.0, -1.0, 1.0, 0.0,
    -1.0, 1.0, 1.0, 0.0, 1.0,
    1.0, 1.0, 1.0, 1.0, 1.0,
    -- Front
    -1.0, -1.0, 1.0, 1.0, 0.0,
    1.0, -1.0, 1.0, 0.0, 0.0,
    -1.0, 1.0, 1.0, 1.0, 1.0,
    1.0, -1.0, 1.0, 0.0, 0.0,
    1.0, 1.0, 1.0, 0.0, 1.0,
    -1.0, 1.0, 1.0, 1.0, 1.0,
    -- Back
    -1.0, -1.0, -1.0, 0.0, 0.0,
    -1.0, 1.0, -1.0, 0.0, 1.0,
    1.0, -1.0, -1.0, 1.0, 0.0,
    1.0, -1.0, -1.0, 1.0, 0.0,
    -1.0, 1.0, -1.0, 0.0, 1.0,
    1.0, 1.0, -1.0, 1.0, 1.0,
    -- Left
    -1.0, -1.0, 1.0, 0.0, 1.0,
    -1.0, 1.0, -1.0, 1.0, 0.0,
    -1.0, -1.0, -1.0, 0.0, 0.0,
    -1.0, -1.0, 1.0, 0.0, 1.0,
    -1.0, 1.0, 1.0, 1.0, 1.0,
    -1.0, 1.0, -1.0, 1.0, 0.0,
    -- Right
    1.0, -1.0, 1.0, 1.0, 1.0,
    1.0, -1.0, -1.0, 1.0, 0.0,
    1.0, 1.0, -1.0, 0.0, 0.0,
    1.0, -1.0, 1.0, 1.0, 1.0,
    1.0, 1.0, -1.0, 0.0, 0.0,
    1.0, 1.0, 1.0, 0.0, 1.0
  ]

/-- The vertex set-up of `main` in `lightColor.go`: two vertex arrays over the
same buffer and two draw calls an iteration. -/
def mesh : Mesh where
  bufferBytes := (cubeVertices : List ℚ).length * 4
  attribs := [⟨3, 5 * 4, 0⟩, ⟨2, 5 * 4, 3 * 4⟩, ⟨3, 5 * 4, 0⟩, ⟨2, 5 * 4, 3 * 4⟩]
  draws := [⟨0, 6 * 2 * 3⟩, ⟨0, 6 * 2 * 3⟩]

end LightColor

namespace LightBasic

/-- The slice `cubeVertices` of `lightBasic.go`; its header comment names the
columns `X, Y, Z, U, V, X, Y, Z norm`. -/
def cubeVertices {R : Type} [Field R] : List R :=
  [
    -- X, Y, Z, U, V,X,Y,Z norm
    -- Bottom
    -0.5, -0.5, -0.5, 0.0, 0.0, 0.0, 0.0, -1.0,
    0.5, -0.5, -0.5, 1, 0.0, 0.0, 0.0, -1.0,
    -0.5, -0.5, 0.5, 0.0, 1, 0.0, 0.0, -1.0,
    0.5, -0.5, -0.5, 1, 0.0, 0.0, 0.0, -1.0,
    0.5, -0.5, 0.5, 1.0, 1.0, 0.0, 0.0, -1.0,
    -0.5, -0.5, 0.5, 0.0, 1, 0.0, 0.0, -1.0,
    -- Top
    -0.5, 0.5, -0.5, 0.0, 0.0, 0.0, 0.0, 1.0,
    -0.5, 0.5, 0.5, 0.0, 1, 0.0, 0.0, 1.0,
    0.5, 0.5, -0.5, 1, 0.0, 0.0, 0.0, 1.0,
    0.5, 0.5, -0.5, 1, 0.0, 0.0, 0.0, 1.0,
    -0.5, 0.5, 0.5, 0.0, 1, 0.0, 0.0, 1.0,
    0.5, 0.5, 0.5, 1, 1, 0.0, 0.0, 1.0,
    -- Front
    -0.5, -0.5, 0.5, 1, 0.0, -1.0, 0.0, 0.0,
    0.5, -0.5, 0.5, 0.0, 0.0, -1.0, 0.0, 0.0,
    -0.5, 0.5, 0.5, 1, 1, -1.0, 0.0, 0.0,
    0.5, -0.5, 0.5, 0.0, 0.0, -1.0, 0.0, 0.0,
    0.5, 0.5, 0.5, 0.0, 1, -1.0, 0.0, 0.0,
    -0.5, 0.5, 0.5, 1, 1, -1.0, 0.0, 0.0,
    -- Back
    -0.5, -0.5, -0.5, 0.0, 0.0, 1.0, 0.0, 0.0,
    -0.5, 0.5, -0.5, 0.0, 1, 1.0, 0.0, 0.0,
    0.5, -0.5, -0.5, 1, 0.0, 1.0, 0.0, 0.0,
    0.5, -0.5, -0.5, 1, 0.0, 1.0, 0.0, 0.0,
    -0.5, 0.5, -0.5, 0.0, 1, 1.0, 0.0, 0.0,
    0.5, 0.5, -0.5, 1, 1, 1.0, 0.0, 0.0,
    -- Left
    -0.5, -0.5, 0.5, 0.0, 1, 0.0, -1.0, 0.0,
    -0.5, 0.5, -0.5, 1, 0.0, 0.0, -1.0, 0.0,
    -0.5, -0.5, -0.5, 0.0, 0.0, 0.0, -1.0, 0.0,
    -0.5, -0.5, 0.5, 0.0, 1, 0.0, -1.0, 0.0,
    -0.5, 0.5, 0.5, 1, 1, 0.0, -1.0, 0.0,
    -0.5, 0.5, -0.5, 1, 0.0, 0.0, -1.0, 0.0,
    -- Right
    0.5, -0.5, 0.5, 1, 1, 0.0, 1.0, 0.0,
    0.5, -0.5, -0.5, 1, 0.0, 0.0, 1.0, 0.0,
    0.5, 0.5, -0.5, 0.0, 0.0, 0.0, 1.0, 0.0,
    0.5, -0.5, 0.5, 1, 1, 0.0, 1.0, 0.0,
    0.5, 0.5, -0.5, 0.0, 0.0, 0.0, 1.0, 0.0,
    0.5, 0.5, 0.5, 0.0, 1, 0.0, 1.0, 0.0
  ]

/-- The attribute pointer of `vert` in `lightBasic.go`. -/
def vertAttrib : AttribPointer := ⟨3, 8 * 4, 0⟩

/-- The attribute pointer of `vertTexCoord` in `lightBasic.go`. -/
def texCoordAttrib : AttribPointer := ⟨2, 8 * 4, 3 * 4⟩

/-- The attribute pointer of `aNormal` in `lightBasic.go`. -/
def aNormalAttrib : AttribPointer := ⟨3, 8 * 4, 5 * 4⟩

/-- The vertex set-up of `main` in `lightBasic.go`: the lit cube's vertex
array with three attributes, the light marker's with two, and two draw calls
an iteration. -/
def mesh : Mesh where
  bufferBytes := (cubeVertices : List ℚ).length * 4
  attribs := [vertAttrib, texCoordAttrib, aNormalAttrib, ⟨3, 8 * 4, 0⟩, ⟨2, 8 * 4, 3 * 4⟩]
  draws := [⟨0, 6 * 2 * 3⟩, ⟨0, 6 * 2 * 3⟩]

/-- Position of vertex `v` of the lit cube, as the shader input `vert`. -/
def position (v : Nat) : Vec3 ℚ :=
  readVec3 cubeVertices vertAttrib v

/-- Normal attribute of vertex `v` of the lit cube, as the shader input
`aNormal`. -/
def normal (v : Nat) : Vec3 ℚ :=
  readVec3 cubeVertices aNormalAttrib v

/-- Whether `n` is perpendicular to the plane of the triangle `p0 p1 p2`:
orthogonal to two of its edges. -/
def perpendicularToTriangle (p0 p1 p2 n : Vec3 ℚ) : Bool :=
  (p1.Sub p0).Dot n = 0 && (p2.Sub p0).Dot n = 0

/-- Whether `n` is the outward unit normal of the triangle `p0 p1 p2` of a
solid centred at the origin: of squared length one, perpendicular to the
triangle, and pointing away from the centre. -/
def isOutwardUnitNormal (p0 p1 p2 n : Vec3 ℚ) : Bool :=
  n.Dot n = 1 && perpendicularToTriangle p0 p1 p2 n && 0 < p0.Dot n

/-- Whether every vertex of triangle `t` of the `gl.TRIANGLES` draw (vertices
`3 t`, `3 t + 1`, `3 t + 2`) carries the outward unit normal of that triangle. -/
def triangleNormalsOutward (t : Nat) : Bool :=
  (List.range 3).all fun j =>
    isOutwardUnitNormal (position (3 * t)) (position (3 * t + 1)) (position (3 * t + 2))
      (normal (3 * t + j))

end LightBasic

/-! ## Float values as rationals -/

/-- The value of `float32(math.Pi)`, the constant of `mgl32.DegToRad`: the
float32 nearest to π, `13176795 / 2^22 = 3.1415927410125732421875`. -/
def Pi32 {R : Type} [Field R] : R :=
  13176795 / 4194304

/-- A cursor event with rational coordinates (every finite `float64` is a
rational number), read in the field `R`. -/
def CursorEvent.cast {R : Type} [Field R] (e : CursorEvent ℚ) : CursorEvent R where
  w := e.w
  xpos := (e.xpos : R)
  ypos := (e.ypos : R)

/-- The globals hold rational angles and a rational baseline (as float values
are), the declared up vector `(0, 1, 0)`, and a front vector whose cross
product with the up vector is not zero. -/
def Globals.Regular (g : Globals ℝ) : Prop :=
  (∃ q : ℚ, g.yaw = q) ∧ (∃ q : ℚ, g.pitch = q) ∧
  (∃ q : ℚ, g.lastX = q) ∧ (∃ q : ℚ, g.lastY = q) ∧
  g.cameraUp = ⟨0, 1, 0⟩ ∧ g.cameraFront.Cross g.cameraUp ≠ ⟨0, 0, 0⟩

/-! ## Lemmas on vectors over the reals -/

section RealLemmas

/-- The vector built from yaw and pitch has squared length one. -/
theorem frontRaw_sq (yaw pitch : ℝ) :
    (frontRaw ⟨Real.cos, Real.sin, Real.sqrt, Real.pi⟩ yaw pitch).x *
        (frontRaw ⟨Real.cos, Real.sin, Real.sqrt, Real.pi⟩ yaw pitch).x +
      (frontRaw ⟨Real.cos, Real.sin, Real.sqrt, Real.pi⟩ yaw pitch).y *
        (frontRaw ⟨Real.cos, Real.sin, Real.sqrt, Real.pi⟩ yaw pitch).y +
      (frontRaw ⟨Real.cos, Real.sin, Real.sqrt, Real.pi⟩ yaw pitch).z *
        (frontRaw ⟨Real.cos, Real.sin, Real.sqrt, Real.pi⟩ yaw pitch).z = 1 := by
  simp only [frontRaw, DegToRad]
  have h1 := Real.cos_sq_add_sin_sq (yaw * Real.pi / 180)
  have h2 := Real.cos_sq_add_sin_sq (pitch * Real.pi / 180)
  linear_combination (Real.cos (pitch * Real.pi / 180)) ^ 2 * h1 + h2

/-- The vector built from yaw and pitch has length one. -/
theorem frontRaw_Len (yaw pitch : ℝ) :
    (frontRaw ⟨Real.cos, Real.sin, Real.sqrt, Real.pi⟩ yaw pitch).Len
      ⟨Real.cos, Real.sin, Real.sqrt, Real.pi⟩ = 1 := by
  unfold Vec3.Len
  rw [frontRaw_sq]
  exact Real.sqrt_one

/-- Normalising a vector of length one returns it. -/
theorem Normalize_of_Len_one (v : Vec3 ℝ)
    (h : v.Len ⟨Real.cos, Real.sin, Real.sqrt, Real.pi⟩ = 1) :
    v.Normalize ⟨Real.cos, Real.sin, Real.sqrt, Real.pi⟩ = v := by
  unfold Vec3.Normalize
  rw [h]
  ext <;> simp

/-- Normalising the vector built from yaw and pitch returns it. -/
theorem Normalize_frontRaw (yaw pitch : ℝ) :
    (frontRaw ⟨Real.cos, Real.sin, Real.sqrt, Real.pi⟩ yaw pitch).Normalize
      ⟨Real.cos, Real.sin, Real.sqrt, Real.pi⟩ =
    frontRaw ⟨Real.cos, Real.sin, Real.sqrt, Real.pi⟩ yaw pitch :=
  Normalize_of_Len_one _ (frontRaw_Len yaw pitch)

/-- One cursor event keeps the front vector at length one. -/
theorem mouseMoveCallback_Len (w : Window) (xpos ypos : ℝ) (g : Globals ℝ)
    (h : g.cameraFront.Len ⟨Real.cos, Real.sin, Real.sqrt, Real.pi⟩ = 1) :
    (mouseMoveCallback ⟨Real.cos, Real.sin, Real.sqrt, Real.pi⟩ w xpos ypos g).cameraFront.Len
      ⟨Real.cos, Real.sin, Real.sqrt, Real.pi⟩ = 1 := by
  unfold mouseMoveCallback
  by_cases hb : w.GetMouseButton MouseButton.MouseButtonLeft = Action.Press
  · simp only [hb, if_true]
    rw [Normalize_frontRaw]
    exact frontRaw_Len _ _
  · simp only [hb, if_false]
    split <;> exact h

/-- Any sequence of cursor events keeps the front vector at length one. -/
theorem handleCursorEvents_Len (es : List (CursorEvent ℝ)) (g : Globals ℝ)
    (h : g.cameraFront.Len ⟨Real.cos, Real.sin, Real.sqrt, Real.pi⟩ = 1) :
    (handleCursorEvents ⟨Real.cos, Real.sin, Real.sqrt, Real.pi⟩ g es).cameraFront.Len
      ⟨Real.cos, Real.sin, Real.sqrt, Real.pi⟩ = 1 := by
  induction es generalizing g with
  | nil => exact h
  | cons e es ih =>
    exact ih _ (mouseMoveCallback_Len e.w e.xpos e.ypos g h)

/-- The initial front vector has length one. -/
theorem initGlobals_Len :
    (initGlobals : Globals ℝ).cameraFront.Len ⟨Real.cos, Real.sin, Real.sqrt, Real.pi⟩ = 1 := by
  simp [initGlobals, Vec3.Len]

end RealLemmas

/-! ## The cursor handler -/

/-- C1. From the initial globals, after any finite sequence of cursor events
(any button state, any coordinates) `cameraFront` has Euclidean length 1; and
for all yaw and pitch the vector `(cos yaw cos pitch, sin pitch, sin yaw cos
pitch)` handed to `Normalize` has length 1, so it is not the zero vector and
its length, by which `Normalize` divides, is not zero. -/
theorem unit_front_invariant :
    (∀ es : List (CursorEvent ℝ),
      (handleCursorEvents ⟨Real.cos, Real.sin, Real.sqrt, Real.pi⟩ initGlobals es).cameraFront.Len
        ⟨Real.cos, Real.sin, Real.sqrt, Real.pi⟩ = 1) ∧
    (∀ yaw pitch : ℝ,
      frontRaw ⟨Real.cos, Real.sin, Real.sqrt, Real.pi⟩ yaw pitch ≠ ⟨0, 0, 0⟩ ∧
      (frontRaw ⟨Real.cos, Real.sin, Real.sqrt, Real.pi⟩ yaw pitch).Len
        ⟨Real.cos, Real.sin, Real.sqrt, Real.pi⟩ ≠ 0) := by
  refine ⟨fun es => handleCursorEvents_Len es _ initGlobals_Len, fun yaw pitch => ⟨?_, ?_⟩⟩
  · intro h0
    have h := frontRaw_sq yaw pitch
    rw [h0] at h
    norm_num at h
  · rw [frontRaw_Len]
    exact one_ne_zero

/-- C2. No jump on re-press: from any globals, a cursor event at `(x1, y1)`
with the left button released followed by a cursor event at `(x2, y2)` with the
left button pressed leaves yaw and pitch as they were, sets the baseline
`(lastX, lastY)` to `(x2, y2)` and clears `firstMouse`. -/
theorem no_jump_on_repress (g : Globals ℝ) (w1 w2 : Window) (x1 y1 x2 y2 : ℝ)
    (h1 : w1.buttonDown MouseButton.MouseButtonLeft = false)
    (h2 : w2.buttonDown MouseButton.MouseButtonLeft = true) :
    (mouseMoveCallback ⟨Real.cos, Real.sin, Real.sqrt, Real.pi⟩ w2 x2 y2
      (mouseMoveCallback ⟨Real.cos, Real.sin, Real.sqrt, Real.pi⟩ w1 x1 y1 g)).yaw = g.yaw ∧
    (mouseMoveCallback ⟨Real.cos, Real.sin, Real.sqrt, Real.pi⟩ w2 x2 y2
      (mouseMoveCallback ⟨Real.cos, Real.sin, Real.sqrt, Real.pi⟩ w1 x1 y1 g)).pitch = g.pitch ∧
    (mouseMoveCallback ⟨Real.cos, Real.sin, Real.sqrt, Real.pi⟩ w2 x2 y2
      (mouseMoveCallback ⟨Real.cos, Real.sin, Real.sqrt, Real.pi⟩ w1 x1 y1 g)).lastX = x2 ∧
    (mouseMoveCallback ⟨Real.cos, Real.sin, Real.sqrt, Real.pi⟩ w2 x2 y2
      (mouseMoveCallback ⟨Real.cos, Real.sin, Real.sqrt, Real.pi⟩ w1 x1 y1 g)).lastY = y2 ∧
    (mouseMoveCallback ⟨Real.cos, Real.sin, Real.sqrt, Real.pi⟩ w2 x2 y2
      (mouseMoveCallback ⟨Real.cos, Real.sin, Real.sqrt, Real.pi⟩ w1 x1 y1 g)).firstMouse
        = false := by
  simp [mouseMoveCallback, Window.GetMouseButton, h1, h2]

/-- Instance of C2: from the initial globals, a release event at `(10, 20)`
and then a press event at `(700, 500)`. -/
theorem no_jump_on_repress_witness :
    (mouseMoveCallback ⟨Real.cos, Real.sin, Real.sqrt, Real.pi⟩ (mouseWindow true) 700 500
      (mouseMoveCallback ⟨Real.cos, Real.sin, Real.sqrt, Real.pi⟩ (mouseWindow false) 10 20
        initGlobals)).yaw = (initGlobals : Globals ℝ).yaw ∧
    (mouseMoveCallback ⟨Real.cos, Real.sin, Real.sqrt, Real.pi⟩ (mouseWindow true) 700 500
      (mouseMoveCallback ⟨Real.cos, Real.sin, Real.sqrt, Real.pi⟩ (mouseWindow false) 10 20
        initGlobals)).pitch = (initGlobals : Globals ℝ).pitch ∧
    (mouseMoveCallback ⟨Real.cos, Real.sin, Real.sqrt, Real.pi⟩ (mouseWindow true) 700 500
      (mouseMoveCallback ⟨Real.cos, Real.sin, Real.sqrt, Real.pi⟩ (mouseWindow false) 10 20
        initGlobals)).lastX = 700 ∧
    (mouseMoveCallback ⟨Real.cos, Real.sin, Real.sqrt, Real.pi⟩ (mouseWindow true) 700 500
      (mouseMoveCallback ⟨Real.cos, Real.sin, Real.sqrt, Real.pi⟩ (mouseWindow false) 10 20
        initGlobals)).lastY = 500 ∧
    (mouseMoveCallback ⟨Real.cos, Real.sin, Real.sqrt, Real.pi⟩ (mouseWindow true) 700 500
      (mouseMoveCallback ⟨Real.cos, Real.sin, Real.sqrt, Real.pi⟩ (mouseWindow false) 10 20
        initGlobals)).firstMouse = false :=
  no_jump_on_repress initGlobals (mouseWindow false) (mouseWindow true) 10 20 700 500 rfl rfl

/-- C3. Tracking move: with `firstMouse` false and the left button pressed, a
cursor event at `(x, y)` sets `yaw' = yaw + 0.1 * (x - lastX)`,
`pitch' = pitch + 0.1 * (lastY - y)`, `lastX' = x`, `lastY' = y` and
`cameraFront' = normalize (cos yaw' cos pitch', sin pitch', sin yaw' cos pitch')`
with the angles converted from degrees to radians; a move up (`y < lastY`)
strictly increases pitch. -/
theorem tracking_move_update (g : Globals ℝ) (w : Window) (x y : ℝ)
    (hf : g.firstMouse = false)
    (hb : w.buttonDown MouseButton.MouseButtonLeft = true) :
    (mouseMoveCallback ⟨Real.cos, Real.sin, Real.sqrt, Real.pi⟩ w x y g).yaw
      = g.yaw + 0.1 * (x - g.lastX) ∧
    (mouseMoveCallback ⟨Real.cos, Real.sin, Real.sqrt, Real.pi⟩ w x y g).pitch
      = g.pitch + 0.1 * (g.lastY - y) ∧
    (y < g.lastY →
      g.pitch < (mouseMoveCallback ⟨Real.cos, Real.sin, Real.sqrt, Real.pi⟩ w x y g).pitch) ∧
    (mouseMoveCallback ⟨Real.cos, Real.sin, Real.sqrt, Real.pi⟩ w x y g).lastX = x ∧
    (mouseMoveCallback ⟨Real.cos, Real.sin, Real.sqrt, Real.pi⟩ w x y g).lastY = y ∧
    (mouseMoveCallback ⟨Real.cos, Real.sin, Real.sqrt, Real.pi⟩ w x y g).cameraFront
      = Vec3.Normalize ⟨Real.cos, Real.sin, Real.sqrt, Real.pi⟩
          ⟨Real.cos ((g.yaw + 0.1 * (x - g.lastX)) * Real.pi / 180) *
              Real.cos ((g.pitch + 0.1 * (g.lastY - y)) * Real.pi / 180),
            Real.sin ((g.pitch + 0.1 * (g.lastY - y)) * Real.pi / 180),
            Real.sin ((g.yaw + 0.1 * (x - g.lastX)) * Real.pi / 180) *
              Real.cos ((g.pitch + 0.1 * (g.lastY - y)) * Real.pi / 180)⟩ := by
  have e1 : g.yaw + (x - g.lastX) * 0.1 = g.yaw + 0.1 * (x - g.lastX) := by ring
  have e2 : g.pitch + (g.lastY - y) * 0.1 = g.pitch + 0.1 * (g.lastY - y) := by ring
  simp only [mouseMoveCallback, Window.GetMouseButton, hb, hf, if_true, frontRaw, DegToRad,
    e1, e2, Bool.false_eq_true, if_false]
  refine ⟨trivial, trivial, ?_, trivial, trivial, trivial⟩
  intro hy
  have : 0 < 0.1 * (g.lastY - y) := by
    have : 0 < g.lastY - y := sub_pos.mpr hy
    positivity
  linarith

/-- Instance of C3: from the initial globals, a press event at `(30, -40)`
raises pitch from `0` to `4`. -/
theorem tracking_move_update_witness :
    (mouseMoveCallback ⟨Real.cos, Real.sin, Real.sqrt, Real.pi⟩ (mouseWindow true) 30 (-40)
      initGlobals).yaw = (initGlobals : Globals ℝ).yaw + 0.1 * (30 - (initGlobals : Globals ℝ).lastX) ∧
    (mouseMoveCallback ⟨Real.cos, Real.sin, Real.sqrt, Real.pi⟩ (mouseWindow true) 30 (-40)
      initGlobals).pitch = 4 :=
  ⟨(tracking_move_update initGlobals (mouseWindow true) 30 (-40) rfl rfl).1,
    (tracking_move_update initGlobals (mouseWindow true) 30 (-40) rfl rfl).2.1.trans
      (by norm_num [initGlobals])⟩

/-- C4. Button not held: a cursor event handled while the left button is not
pressed sets `firstMouse` to true and leaves yaw, pitch, `cameraFront`,
`lastX`, `lastY` and `cameraPos` (and every other global) as they were. -/
theorem button_not_held (g : Globals ℝ) (w : Window) (x y : ℝ)
    (hb : w.buttonDown MouseButton.MouseButtonLeft = false) :
    mouseMoveCallback ⟨Real.cos, Real.sin, Real.sqrt, Real.pi⟩ w x y g
      = { g with firstMouse := true } ∧
    (mouseMoveCallback ⟨Real.cos, Real.sin, Real.sqrt, Real.pi⟩ w x y g).firstMouse = true ∧
    (mouseMoveCallback ⟨Real.cos, Real.sin, Real.sqrt, Real.pi⟩ w x y g).yaw = g.yaw ∧
    (mouseMoveCallback ⟨Real.cos, Real.sin, Real.sqrt, Real.pi⟩ w x y g).pitch = g.pitch ∧
    (mouseMoveCallback ⟨Real.cos, Real.sin, Real.sqrt, Real.pi⟩ w x y g).cameraFront
      = g.cameraFront ∧
    (mouseMoveCallback ⟨Real.cos, Real.sin, Real.sqrt, Real.pi⟩ w x y g).lastX = g.lastX ∧
    (mouseMoveCallback ⟨Real.cos, Real.sin, Real.sqrt, Real.pi⟩ w x y g).lastY = g.lastY ∧
    (mouseMoveCallback ⟨Real.cos, Real.sin, Real.sqrt, Real.pi⟩ w x y g).cameraPos
      = g.cameraPos := by
  simp [mouseMoveCallback, Window.GetMouseButton, hb]

/-- Instance of C4: the initial globals and a cursor event at `(640, 480)`
with no button held. -/
theorem button_not_held_witness :
    mouseMoveCallback ⟨Real.cos, Real.sin, Real.sqrt, Real.pi⟩ (mouseWindow false) 640 480
      (initGlobals : Globals ℝ) = { (initGlobals : Globals ℝ) with firstMouse := true } :=
  (button_not_held initGlobals (mouseWindow false) 640 480 rfl).1

/-! ## The keyboard handler -/

/-- C5. Keyboard sign convention: `processInput` changes `cameraPos` as the
specification words it (speed `2.5 * deltaTime`, right vector
`normalize (cameraFront x cameraUp)`; W adds front times speed, S subtracts it,
A adds right times speed, D subtracts it; in the order W, S, A, D and only for
keys pressed), and with no key pressed nothing changes. -/
theorem keyboard_sign_convention (g : Globals ℝ) (win : Window) :
    processInput ⟨Real.cos, Real.sin, Real.sqrt, Real.pi⟩ win g
      = { g with cameraPos :=
            keyboardSpec ⟨Real.cos, Real.sin, Real.sqrt, Real.pi⟩ win.keyDown g } ∧
    ((∀ k, win.keyDown k = false) →
      processInput ⟨Real.cos, Real.sin, Real.sqrt, Real.pi⟩ win g = g) := by
  constructor
  · cases hW : win.keyDown Key.KeyW <;> cases hS : win.keyDown Key.KeyS <;>
      cases hA : win.keyDown Key.KeyA <;> cases hD : win.keyDown Key.KeyD <;>
      simp [processInput, keyboardSpec, keyMove, cameraRight, Window.GetKey, hW, hS, hA, hD]
  · intro h
    simp [processInput, Window.GetKey, h]

/-- Instance of C5: the A key alone, and no key, at the initial globals with a
frame time of `2`; A moves the camera from `(0, 0, 3)` to `(5, 0, 3)`. -/
theorem keyboard_sign_convention_witness :
    (processInput ⟨Real.cos, Real.sin, Real.sqrt, Real.pi⟩ (keyWindow false false true false)
      { (initGlobals : Globals ℝ) with deltaTime := 2 }).cameraPos = ⟨5, 0, 3⟩ ∧
    processInput ⟨Real.cos, Real.sin, Real.sqrt, Real.pi⟩ (keyWindow false false false false)
      { (initGlobals : Globals ℝ) with deltaTime := 2 }
      = { (initGlobals : Globals ℝ) with deltaTime := 2 } := by
  refine ⟨?_, (keyboard_sign_convention _ _).2 (fun k => by cases k <;> rfl)⟩
  rw [(keyboard_sign_convention _ _).1]
  simp [keyboardSpec, keyMove, cameraRight, keyWindow, initGlobals, Vec3.Add, Vec3.Mul,
    Vec3.Cross, Vec3.Normalize, Vec3.Len]
  norm_num

/-- C6. Linear scaling with frame time: for all globals, all sets of pressed
keys and every frame time `d` (in particular every `d ≥ 0`), the displacement
of `cameraPos` under `processInput` with `deltaTime = 2 * d` is twice the
displacement with `deltaTime = d`. -/
theorem linear_scaling_frame_time (g : Globals ℝ) (win : Window) (d : ℝ) :
    ((processInput ⟨Real.cos, Real.sin, Real.sqrt, Real.pi⟩ win
        { g with deltaTime := 2 * d }).cameraPos.Sub g.cameraPos)
      = ((processInput ⟨Real.cos, Real.sin, Real.sqrt, Real.pi⟩ win
        { g with deltaTime := d }).cameraPos.Sub g.cameraPos).Mul 2 := by
  cases hW : win.keyDown Key.KeyW <;> cases hS : win.keyDown Key.KeyS <;>
    cases hA : win.keyDown Key.KeyA <;> cases hD : win.keyDown Key.KeyD <;>
    simp only [processInput, Window.GetKey, hW, hS, hA, hD, Vec3.Add, Vec3.Sub, Vec3.Mul,
      if_true, if_false, Bool.false_eq_true, reduceCtorEq] <;>
    ext <;> simp only [] <;> ring

/-- C9. End-to-end forward move: with `cameraFront = (0, 0, -1)`,
`cameraUp = (0, 1, 0)`, `deltaTime = 1` and only the W key pressed,
`processInput` changes `cameraPos` by exactly `(0, 0, -2.5)`, whatever the
starting position. -/
theorem forward_move_end_to_end (g : Globals ℝ) (win : Window)
    (hf : g.cameraFront = ⟨0, 0, -1⟩) (_hu : g.cameraUp = ⟨0, 1, 0⟩) (hd : g.deltaTime = 1)
    (hW : win.keyDown Key.KeyW = true) (hS : win.keyDown Key.KeyS = false)
    (hA : win.keyDown Key.KeyA = false) (hD : win.keyDown Key.KeyD = false) :
    (processInput ⟨Real.cos, Real.sin, Real.sqrt, Real.pi⟩ win g).cameraPos
      = g.cameraPos.Add ⟨0, 0, -2.5⟩ ∧
    (processInput ⟨Real.cos, Real.sin, Real.sqrt, Real.pi⟩ win g).cameraPos.Sub g.cameraPos
      = ⟨0, 0, -2.5⟩ := by
  simp only [processInput, Window.GetKey, hW, hS, hA, hD, hf, hd, Vec3.Add, Vec3.Sub, Vec3.Mul,
    if_true, if_false, Bool.false_eq_true, reduceCtorEq]
  constructor <;> ext <;> simp only [] <;> ring

/-- Instance of C9: the initial globals with a frame time of one second; the
camera moves from `(0, 0, 3)` to `(0, 0, 0.5)`. -/
theorem forward_move_end_to_end_witness :
    (processInput ⟨Real.cos, Real.sin, Real.sqrt, Real.pi⟩ (keyWindow true false false false)
      { (initGlobals : Globals ℝ) with deltaTime := 1 }).cameraPos = ⟨0, 0, 0.5⟩ := by
  rw [(forward_move_end_to_end { (initGlobals : Globals ℝ) with deltaTime := 1 }
    (keyWindow true false false false) rfl rfl rfl rfl rfl rfl rfl).1]
  simp only [initGlobals, Vec3.Add]
  ext <;> simp only [] <;> norm_num

/-! ## Vectors other than zero -/

section StrafeLemmas

/-- A vector other than zero has a positive sum of squares. -/
theorem Vec3.sq_pos_of_ne_zero (v : Vec3 ℝ) (hv : v ≠ ⟨0, 0, 0⟩) :
    0 < v.x * v.x + v.y * v.y + v.z * v.z := by
  by_contra hneg
  have hx := mul_self_nonneg v.x
  have hy := mul_self_nonneg v.y
  have hz := mul_self_nonneg v.z
  have h0x : v.x * v.x = 0 := by linarith
  have h0y : v.y * v.y = 0 := by linarith
  have h0z : v.z * v.z = 0 := by linarith
  apply hv
  ext
  · exact mul_self_eq_zero.mp h0x
  · exact mul_self_eq_zero.mp h0y
  · exact mul_self_eq_zero.mp h0z

end StrafeLemmas

/-! ## Texture errors at start-up -/

/-- In `camera.go` an error of the texture load never leads into the render
loop, and once the earlier start-up steps have succeeded it ends the run in
`log.Fatalln`. -/
theorem Camera.camera_texture_error_fatal (env : Env) (msg : String)
    (h : (newTexture env "square.png").2 = some msg) :
    (Camera.main env).entersRenderLoop = false ∧
    (env.glfwInit = none → env.createWindow = none → env.glInit = none →
      (env.newProgram Shader.vertexShader Shader.fragmentShader).2 = none →
      Camera.main env = Startup.fatal msg) := by
  rcases h1 : env.glfwInit with _ | e1 <;>
    rcases h2 : env.createWindow with _ | e2 <;>
    rcases h3 : env.glInit with _ | e3 <;>
    rcases h4 : env.newProgram Shader.vertexShader Shader.fragmentShader with ⟨p, _ | e4⟩ <;>
    rcases h5 : newTexture env "square.png" with ⟨t, e5⟩ <;>
    simp_all [Camera.main, Startup.entersRenderLoop]

/-- In `lightBasic.go` an error of the texture load never leads into the
render loop, and once the earlier start-up steps have succeeded it ends the
run in `log.Fatalln`. -/
theorem LightBasic.lightBasic_texture_error_fatal (env : Env) (msg : String)
    (h : (newTexture env "square2.png").2 = some msg) :
    (LightBasic.main env).entersRenderLoop = false ∧
    (env.glfwInit = none → env.createWindow = none → env.glInit = none →
      (env.newProgram Shader.vertexShader Shader.fragmentShader).2 = none →
      (env.newProgram Shader.vertexShader Shader.lightFragmentShader).2 = none →
      LightBasic.main env = Startup.fatal msg) := by
  rcases h1 : env.glfwInit with _ | e1 <;>
    rcases h2 : env.createWindow with _ | e2 <;>
    rcases h3 : env.glInit with _ | e3 <;>
    rcases h4 : env.newProgram Shader.vertexShader Shader.fragmentShader with ⟨p, _ | e4⟩ <;>
    rcases h6 : env.newProgram Shader.vertexShader Shader.lightFragmentShader
      with ⟨q, _ | e6⟩ <;>
    rcases h5 : newTexture env "square2.png" with ⟨t, e5⟩ <;>
    simp_all [LightBasic.main, Startup.entersRenderLoop]

/-- In `lightColor.go` an error of the second texture load (`square2.png`)
never leads into the render loop. -/
theorem LightColor.lightColor_second_texture_error_fatal (env : Env) (msg : String)
    (h : (newTexture env "square2.png").2 = some msg) :
    (LightColor.main env).entersRenderLoop = false := by
  rcases h1 : env.glfwInit with _ | e1 <;>
    rcases h2 : env.createWindow with _ | e2 <;>
    rcases h3 : env.glInit with _ | e3 <;>
    rcases h4 : env.newProgram Shader.vertexShader Shader.fragmentShader with ⟨p, _ | e4⟩ <;>
    rcases h6 : env.newProgram Shader.vertexShader Shader.lightFragmentShader
      with ⟨q, _ | e6⟩ <;>
    rcases h7 : newTexture env "square.png" with ⟨t1, e7⟩ <;>
    rcases h5 : newTexture env "square2.png" with ⟨t, e5⟩ <;>
    simp_all [LightColor.main, Startup.entersRenderLoop]

/-- C10 fails in `lightColor.go`: when `square.png` cannot be opened and
`square2.png` loads, the first `newTexture` call returns an error, yet `main`
does not end in `log.Fatalln`; it enters the render loop with texture name 0
for the missing file. -/
theorem LightColor.first_texture_error_ignored :
    (newTexture envMissingSquare "square.png").2
      = some "texture \"square.png\" not found on disk: open square.png: no such file or directory" ∧
    (newTexture envMissingSquare "square2.png").2 = none ∧
    LightColor.main envMissingSquare = Startup.renderLoop [0, 1] ∧
    (LightColor.main envMissingSquare).isFatal = false ∧
    (LightColor.main envMissingSquare).entersRenderLoop = true := by
  decide

/-! ## Frame of the handlers -/

section FrameLemmas

/-- One cursor event leaves the position, the up vector and the frame timing
as they were. -/
theorem mouseMoveCallback_frame (w : Window) (x y : ℝ) (g : Globals ℝ) :
    (mouseMoveCallback ⟨Real.cos, Real.sin, Real.sqrt, Real.pi⟩ w x y g).cameraPos
      = g.cameraPos ∧
    (mouseMoveCallback ⟨Real.cos, Real.sin, Real.sqrt, Real.pi⟩ w x y g).cameraUp
      = g.cameraUp ∧
    (mouseMoveCallback ⟨Real.cos, Real.sin, Real.sqrt, Real.pi⟩ w x y g).deltaTime
      = g.deltaTime ∧
    (mouseMoveCallback ⟨Real.cos, Real.sin, Real.sqrt, Real.pi⟩ w x y g).lastFrame
      = g.lastFrame := by
  unfold mouseMoveCallback
  by_cases hb : w.GetMouseButton MouseButton.MouseButtonLeft = Action.Press
  · simp only [hb, if_true]
    exact ⟨by split <;> rfl, by split <;> rfl, by split <;> rfl, by split <;> rfl⟩
  · simp only [hb, if_false]
    split <;> exact ⟨rfl, rfl, rfl, rfl⟩

/-- Any sequence of cursor events leaves the position, the up vector and the
frame timing as they were. -/
theorem handleCursorEvents_frame (es : List (CursorEvent ℝ)) (g : Globals ℝ) :
    (handleCursorEvents ⟨Real.cos, Real.sin, Real.sqrt, Real.pi⟩ g es).cameraPos
      = g.cameraPos ∧
    (handleCursorEvents ⟨Real.cos, Real.sin, Real.sqrt, Real.pi⟩ g es).cameraUp
      = g.cameraUp ∧
    (handleCursorEvents ⟨Real.cos, Real.sin, Real.sqrt, Real.pi⟩ g es).deltaTime
      = g.deltaTime ∧
    (handleCursorEvents ⟨Real.cos, Real.sin, Real.sqrt, Real.pi⟩ g es).lastFrame
      = g.lastFrame := by
  induction es generalizing g with
  | nil => exact ⟨rfl, rfl, rfl, rfl⟩
  | cons e es ih =>
    obtain ⟨h1, h2, h3, h4⟩ := mouseMoveCallback_frame e.w e.xpos e.ypos g
    obtain ⟨i1, i2, i3, i4⟩ :=
      ih (mouseMoveCallback ⟨Real.cos, Real.sin, Real.sqrt, Real.pi⟩ e.w e.xpos e.ypos g)
    exact ⟨i1.trans h1, i2.trans h2, i3.trans h3, i4.trans h4⟩

/-- The keyboard update writes `cameraPos` only. -/
theorem processInput_frame (win : Window) (g : Globals ℝ) :
    processInput ⟨Real.cos, Real.sin, Real.sqrt, Real.pi⟩ win g
      = { g with cameraPos :=
            (processInput ⟨Real.cos, Real.sin, Real.sqrt, Real.pi⟩ win g).cameraPos } := by
  cases hW : win.keyDown Key.KeyW <;> cases hS : win.keyDown Key.KeyS <;>
    cases hA : win.keyDown Key.KeyA <;> cases hD : win.keyDown Key.KeyD <;>
    simp [processInput, Window.GetKey, hW, hS, hA, hD]

end FrameLemmas

/-- C13. The two input handlers write disjoint state: `processInput` changes
nothing but `cameraPos` (yaw, pitch, `cameraFront`, `cameraUp`, `lastX`,
`lastY`, `firstMouse`, `deltaTime` and `lastFrame` keep their values), and
`mouseMoveCallback` never changes `cameraPos`, `cameraUp`, `deltaTime` or
`lastFrame`. -/
theorem handlers_write_disjoint_state (g : Globals ℝ) (win w : Window) (x y : ℝ) :
    (processInput ⟨Real.cos, Real.sin, Real.sqrt, Real.pi⟩ win g
      = { g with cameraPos :=
            (processInput ⟨Real.cos, Real.sin, Real.sqrt, Real.pi⟩ win g).cameraPos }) ∧
    ((processInput ⟨Real.cos, Real.sin, Real.sqrt, Real.pi⟩ win g).yaw = g.yaw ∧
      (processInput ⟨Real.cos, Real.sin, Real.sqrt, Real.pi⟩ win g).pitch = g.pitch ∧
      (processInput ⟨Real.cos, Real.sin, Real.sqrt, Real.pi⟩ win g).cameraFront
        = g.cameraFront ∧
      (processInput ⟨Real.cos, Real.sin, Real.sqrt, Real.pi⟩ win g).cameraUp = g.cameraUp ∧
      (processInput ⟨Real.cos, Real.sin, Real.sqrt, Real.pi⟩ win g).lastX = g.lastX ∧
      (processInput ⟨Real.cos, Real.sin, Real.sqrt, Real.pi⟩ win g).lastY = g.lastY ∧
      (processInput ⟨Real.cos, Real.sin, Real.sqrt, Real.pi⟩ win g).firstMouse
        = g.firstMouse ∧
      (processInput ⟨Real.cos, Real.sin, Real.sqrt, Real.pi⟩ win g).deltaTime
        = g.deltaTime ∧
      (processInput ⟨Real.cos, Real.sin, Real.sqrt, Real.pi⟩ win g).lastFrame
        = g.lastFrame) ∧
    ((mouseMoveCallback ⟨Real.cos, Real.sin, Real.sqrt, Real.pi⟩ w x y g).cameraPos
        = g.cameraPos ∧
      (mouseMoveCallback ⟨Real.cos, Real.sin, Real.sqrt, Real.pi⟩ w x y g).cameraUp
        = g.cameraUp ∧
      (mouseMoveCallback ⟨Real.cos, Real.sin, Real.sqrt, Real.pi⟩ w x y g).deltaTime
        = g.deltaTime ∧
      (mouseMoveCallback ⟨Real.cos, Real.sin, Real.sqrt, Real.pi⟩ w x y g).lastFrame
        = g.lastFrame) := by
  refine ⟨processInput_frame win g, ?_, mouseMoveCallback_frame w x y g⟩
  have h := processInput_frame win g
  refine ⟨?_, ?_, ?_, ?_, ?_, ?_, ?_, ?_, ?_⟩ <;> rw [h]

/-- C17. First cursor event from the initial state (yaw `-90`, pitch `0`,
`lastX = lastY = 0`, `firstMouse` false): a cursor event at `(x, y)` with the
left button pressed yields `yaw = -90 + 0.1 * x` and `pitch = -0.1 * y`; the
delta is measured from the baseline `(0, 0)`. -/
theorem first_cursor_event (w : Window) (x y : ℝ)
    (hb : w.buttonDown MouseButton.MouseButtonLeft = true) :
    ((initGlobals : Globals ℝ).yaw = -90 ∧ (initGlobals : Globals ℝ).pitch = 0 ∧
      (initGlobals : Globals ℝ).lastX = 0 ∧ (initGlobals : Globals ℝ).lastY = 0 ∧
      (initGlobals : Globals ℝ).firstMouse = false) ∧
    (mouseMoveCallback ⟨Real.cos, Real.sin, Real.sqrt, Real.pi⟩ w x y initGlobals).yaw
      = -90 + 0.1 * x ∧
    (mouseMoveCallback ⟨Real.cos, Real.sin, Real.sqrt, Real.pi⟩ w x y initGlobals).pitch
      = -0.1 * y ∧
    (mouseMoveCallback ⟨Real.cos, Real.sin, Real.sqrt, Real.pi⟩ w x y initGlobals).yaw
      = (initGlobals : Globals ℝ).yaw + 0.1 * (x - 0) ∧
    (mouseMoveCallback ⟨Real.cos, Real.sin, Real.sqrt, Real.pi⟩ w x y initGlobals).pitch
      = (initGlobals : Globals ℝ).pitch + 0.1 * (0 - y) := by
  refine ⟨⟨rfl, rfl, rfl, rfl, rfl⟩, ?_⟩
  simp only [mouseMoveCallback, Window.GetMouseButton, hb, if_true, initGlobals,
    Bool.false_eq_true, if_false]
  refine ⟨?_, ?_, ?_, ?_⟩ <;> ring

/-- Instance of C17: the first event at `(200, 100)` with the left button
pressed turns the camera to yaw `-70` and pitch `-10`. -/
theorem first_cursor_event_witness :
    (mouseMoveCallback ⟨Real.cos, Real.sin, Real.sqrt, Real.pi⟩ (mouseWindow true) 200 100
      (initGlobals : Globals ℝ)).yaw = -70 ∧
    (mouseMoveCallback ⟨Real.cos, Real.sin, Real.sqrt, Real.pi⟩ (mouseWindow true) 200 100
      (initGlobals : Globals ℝ)).pitch = -10 :=
  ⟨(first_cursor_event (mouseWindow true) 200 100 rfl).2.1.trans (by norm_num),
    (first_cursor_event (mouseWindow true) 200 100 rfl).2.2.1.trans (by norm_num)⟩

/-! ## The render loop -/

section LoopLemmas

/-- One iteration sets `deltaTime` to its `currentFrame` reading minus the
`lastFrame` it was entered with, sets `lastFrame` to that reading, and leaves
`cameraPos` as `processInput` computed it from the state at entry. -/
theorem Camera.renderIteration_timing (fr : Camera.Frame ℝ) (s : Camera.LoopState ℝ) :
    (Camera.renderIteration ⟨Real.cos, Real.sin, Real.sqrt, Real.pi⟩ fr s).g.deltaTime
      = fr.currentFrame - s.g.lastFrame ∧
    (Camera.renderIteration ⟨Real.cos, Real.sin, Real.sqrt, Real.pi⟩ fr s).g.lastFrame
      = fr.currentFrame ∧
    (Camera.renderIteration ⟨Real.cos, Real.sin, Real.sqrt, Real.pi⟩ fr s).g.cameraPos
      = (processInput ⟨Real.cos, Real.sin, Real.sqrt, Real.pi⟩ fr.win s.g).cameraPos := by
  have hp := processInput_frame fr.win s.g
  simp only [Camera.renderIteration]
  refine ⟨?_, ?_, ?_⟩
  · rw [(handleCursorEvents_frame _ _).2.2.1, hp]
  · rw [(handleCursorEvents_frame _ _).2.2.2]
  · rw [(handleCursorEvents_frame _ _).1]

/-- Running the loop over two lists of frames in a row. -/
theorem Camera.runLoop_append (s : Camera.LoopState ℝ) (a b : List (Camera.Frame ℝ)) :
    Camera.runLoop ⟨Real.cos, Real.sin, Real.sqrt, Real.pi⟩ s (a ++ b)
      = Camera.runLoop ⟨Real.cos, Real.sin, Real.sqrt, Real.pi⟩
          (Camera.runLoop ⟨Real.cos, Real.sin, Real.sqrt, Real.pi⟩ s a) b := by
  induction a generalizing s with
  | nil => rfl
  | cons fr a ih => exact ih _

end LoopLemmas

/-- C12, as stated, fails: with end-of-frame clock readings `1.5`, `3.5`,
`4.5` (start-of-frame readings `1`, `3`, `4`) the third iteration's
`processInput` runs with speed `2.5 * (3.5 - 1.5) = 5`, not `2.5` times the
difference of its own and the previous iteration's readings, and with W held
it moves the camera by `(0, 0, -5)`; the first iteration runs with speed `0`. -/
theorem frame_speed_counterexample :
    Camera.iterationSpeed
        (Camera.runLoop ⟨Real.cos, Real.sin, Real.sqrt, Real.pi⟩ (Camera.initLoopState (0 : ℝ))
          [⟨1, keyWindow true false false false, 1.5, []⟩,
           ⟨3, keyWindow true false false false, 3.5, []⟩]) = 5 ∧
    Camera.iterationSpeed
        (Camera.runLoop ⟨Real.cos, Real.sin, Real.sqrt, Real.pi⟩ (Camera.initLoopState (0 : ℝ))
          [⟨1, keyWindow true false false false, 1.5, []⟩,
           ⟨3, keyWindow true false false false, 3.5, []⟩]) ≠ 2.5 * (4.5 - 3.5) ∧
    Camera.iterationSpeed
        (Camera.runLoop ⟨Real.cos, Real.sin, Real.sqrt, Real.pi⟩ (Camera.initLoopState (0 : ℝ))
          [⟨1, keyWindow true false false false, 1.5, []⟩,
           ⟨3, keyWindow true false false false, 3.5, []⟩]) ≠ 2.5 * (4 - 3) ∧
    (Camera.runLoop ⟨Real.cos, Real.sin, Real.sqrt, Real.pi⟩ (Camera.initLoopState (0 : ℝ))
        [⟨1, keyWindow true false false false, 1.5, []⟩,
         ⟨3, keyWindow true false false false, 3.5, []⟩,
         ⟨4, keyWindow true false false false, 4.5, []⟩]).g.cameraPos.Sub
      (Camera.runLoop ⟨Real.cos, Real.sin, Real.sqrt, Real.pi⟩ (Camera.initLoopState (0 : ℝ))
        [⟨1, keyWindow true false false false, 1.5, []⟩,
         ⟨3, keyWindow true false false false, 3.5, []⟩]).g.cameraPos = ⟨0, 0, -5⟩ ∧
    Camera.iterationSpeed (Camera.initLoopState (0 : ℝ)) = 0 ∧
    Camera.iterationSpeed (Camera.initLoopState (0 : ℝ)) ≠ 2.5 * (1.5 - 0) := by
  have h2 : Camera.runLoop ⟨Real.cos, Real.sin, Real.sqrt, Real.pi⟩
      (Camera.initLoopState (0 : ℝ))
      [⟨1, keyWindow true false false false, 1.5, []⟩,
       ⟨3, keyWindow true false false false, 3.5, []⟩]
      = ⟨{ (initGlobals : Globals ℝ) with
            cameraPos := ⟨0, 0, 3 - 2.5 * 1.5⟩, deltaTime := 2, lastFrame := 3.5 }, 3, 3⟩ := by
    simp only [Camera.runLoop, Camera.renderIteration, Camera.initLoopState, processInput,
      Window.GetKey, keyWindow, handleCursorEvents, initGlobals, Vec3.Add, Vec3.Mul,
      if_true, if_false, Bool.false_eq_true, reduceCtorEq]
    norm_num
  have h3 : Camera.runLoop ⟨Real.cos, Real.sin, Real.sqrt, Real.pi⟩
      (Camera.initLoopState (0 : ℝ))
      [⟨1, keyWindow true false false false, 1.5, []⟩,
       ⟨3, keyWindow true false false false, 3.5, []⟩,
       ⟨4, keyWindow true false false false, 4.5, []⟩]
      = Camera.renderIteration ⟨Real.cos, Real.sin, Real.sqrt, Real.pi⟩
          ⟨4, keyWindow true false false false, 4.5, []⟩
          (Camera.runLoop ⟨Real.cos, Real.sin, Real.sqrt, Real.pi⟩
            (Camera.initLoopState (0 : ℝ))
            [⟨1, keyWindow true false false false, 1.5, []⟩,
             ⟨3, keyWindow true false false false, 3.5, []⟩]) := rfl
  rw [h3, h2]
  refine ⟨?_, ?_, ?_, ?_, ?_, ?_⟩
  · norm_num [Camera.iterationSpeed]
  · norm_num [Camera.iterationSpeed]
  · norm_num [Camera.iterationSpeed]
  · simp only [Camera.renderIteration, processInput, Window.GetKey, keyWindow,
      handleCursorEvents, initGlobals, Vec3.Add, Vec3.Mul, Vec3.Sub,
      if_true, if_false, Bool.false_eq_true, reduceCtorEq]
    ext <;> norm_num
  · norm_num [Camera.iterationSpeed, Camera.initLoopState, initGlobals]
  · norm_num [Camera.iterationSpeed, Camera.initLoopState, initGlobals]

/-- C12, amended. In every iteration of the render loop of `camera.go` the
keyboard update (and the view matrix taken from its result) is computed before
the frame timing is advanced, which is done at the end of the iteration
(`deltaTime = currentFrame - lastFrame`, `lastFrame = currentFrame`); so the
speed `processInput` applies is `0` in the first iteration, `2.5` times the
first end-of-frame reading in the second, and in every later iteration `2.5`
times the difference of the end-of-frame readings of the two iterations
before it. -/
theorem frame_speed_previous_frame (t0 : ℝ) (pre : List (Camera.Frame ℝ))
    (f1 f2 : Camera.Frame ℝ) (s : Camera.LoopState ℝ) :
    Camera.iterationSpeed (Camera.initLoopState t0) = 0 ∧
    Camera.iterationSpeed (Camera.runLoop ⟨Real.cos, Real.sin, Real.sqrt, Real.pi⟩
      (Camera.initLoopState t0) [f1]) = 2.5 * (f1.currentFrame - 0) ∧
    Camera.iterationSpeed (Camera.runLoop ⟨Real.cos, Real.sin, Real.sqrt, Real.pi⟩
      (Camera.initLoopState t0) (pre ++ [f1, f2])) = 2.5 * (f2.currentFrame - f1.currentFrame) ∧
    (Camera.renderIteration ⟨Real.cos, Real.sin, Real.sqrt, Real.pi⟩ f1 s).g.cameraPos
      = (processInput ⟨Real.cos, Real.sin, Real.sqrt, Real.pi⟩ f1.win s.g).cameraPos ∧
    Camera.viewArguments ⟨Real.cos, Real.sin, Real.sqrt, Real.pi⟩ f1 s
      = ((processInput ⟨Real.cos, Real.sin, Real.sqrt, Real.pi⟩ f1.win s.g).cameraPos,
         (processInput ⟨Real.cos, Real.sin, Real.sqrt, Real.pi⟩ f1.win s.g).cameraPos.Add
           s.g.cameraFront, s.g.cameraUp) ∧
    (Camera.renderIteration ⟨Real.cos, Real.sin, Real.sqrt, Real.pi⟩ f1 s).g.deltaTime
      = f1.currentFrame - s.g.lastFrame ∧
    (Camera.renderIteration ⟨Real.cos, Real.sin, Real.sqrt, Real.pi⟩ f1 s).g.lastFrame
      = f1.currentFrame := by
  have ht := Camera.renderIteration_timing f1 s
  refine ⟨?_, ?_, ?_, ht.2.2, ?_, ht.1, ht.2.1⟩
  · simp [Camera.iterationSpeed, Camera.initLoopState, initGlobals]
  · have h := Camera.renderIteration_timing f1 (Camera.initLoopState t0)
    simp only [Camera.iterationSpeed, Camera.runLoop]
    rw [h.1]
    simp [Camera.initLoopState, initGlobals]
  · rw [Camera.runLoop_append]
    simp only [Camera.iterationSpeed, Camera.runLoop]
    rw [(Camera.renderIteration_timing f2 _).1, (Camera.renderIteration_timing f1 _).2.1]
  · have hp := processInput_frame f1.win s.g
    simp only [Camera.viewArguments]
    rw [hp]

/-! ## Model matrices -/

section MatrixLemmas

/-- The rows-and-columns reading of `Mul4` is the matrix product. -/
theorem Mat4.toMatrix_Mul4 (a b : Mat4 ℝ) :
    Mat4.toMatrix (Mul4 a b) = Mat4.toMatrix a * Mat4.toMatrix b := by
  ext r c
  rw [Matrix.mul_apply, Fin.sum_univ_four]
  fin_cases r <;> fin_cases c <;> rfl

/-- The rows-and-columns reading of `HomogRotate3D` about `(0, 1, 0)` is the
rotation about the Y axis. -/
theorem Mat4.toMatrix_HomogRotate3D_Y (angle : ℝ) :
    Mat4.toMatrix (HomogRotate3D ⟨Real.cos, Real.sin, Real.sqrt, Real.pi⟩ angle ⟨0, 1, 0⟩)
      = RotationAboutY ⟨Real.cos, Real.sin, Real.sqrt, Real.pi⟩ angle := by
  ext r c
  fin_cases r <;> fin_cases c <;>
    simp [Mat4.toMatrix, HomogRotate3D, RotationAboutY]

/-- The rows-and-columns reading of `Translate3D` is the translation. -/
theorem Mat4.toMatrix_Translate3D (x y z : ℝ) :
    Mat4.toMatrix (Translate3D x y z) = Translation x y z := by
  ext r c
  fin_cases r <;> fin_cases c <;>
    simp [Mat4.toMatrix, Translate3D, Translation]

/-- The model matrix of an entry with three components, read as rows and
columns, is the rotation about Y by `20 * i` times the translation. -/
theorem Camera.modelMatrix_three (i : ℕ) (x y z : ℝ) :
    ∃ M : Mat4 ℝ,
      Camera.modelMatrix ⟨Real.cos, Real.sin, Real.sqrt, Real.pi⟩ i [x, y, z] = some M ∧
      M.toMatrix = RotationAboutY ⟨Real.cos, Real.sin, Real.sqrt, Real.pi⟩ (20 * (i : ℝ))
        * Translation x y z := by
  refine ⟨_, rfl, ?_⟩
  rw [Mat4.toMatrix_Mul4, Mat4.toMatrix_HomogRotate3D_Y, Mat4.toMatrix_Translate3D,
    mul_comm (i : ℝ) 20]

/-- Every entry of `cubePositions` has exactly three components. -/
theorem Camera.cubePositions_three (each : List ℝ)
    (h : each ∈ (Camera.cubePositions : List (List ℝ))) :
    ∃ x y z : ℝ, each = [x, y, z] := by
  simp only [Camera.cubePositions, List.mem_cons, List.mem_singleton, List.not_mem_nil,
    or_false] at h
  rcases h with h | h | h | h | h | h | h | h | h | h <;> exact ⟨_, _, _, h⟩

end MatrixLemmas

/-- C14. Per-cube model matrix: `cubePositions` has exactly 10 entries of
exactly 3 components each, so `each[0]`, `each[1]`, `each[2]` are in range;
for every index `i` with entry `(x, y, z)` the uploaded model matrix is
`RotationAboutY (20 * i) * Translation (x, y, z)`, the rotation on the left;
and for `i = 0` it is the identity matrix. -/
theorem per_cube_model_matrix :
    (Camera.cubePositions : List (List ℝ)).length = 10 ∧
    (∀ each ∈ (Camera.cubePositions : List (List ℝ)), each.length = 3) ∧
    (Camera.modelMatrices ⟨Real.cos, Real.sin, Real.sqrt, Real.pi⟩).length = 10 ∧
    (∀ (i : ℕ) (each : List ℝ), (Camera.cubePositions : List (List ℝ)).get? i = some each →
      ∃ (x y z : ℝ) (M : Mat4 ℝ), each = [x, y, z] ∧
        Camera.modelMatrix ⟨Real.cos, Real.sin, Real.sqrt, Real.pi⟩ i each = some M ∧
        (Camera.modelMatrices ⟨Real.cos, Real.sin, Real.sqrt, Real.pi⟩).get? i
          = some (some M) ∧
        M.toMatrix = RotationAboutY ⟨Real.cos, Real.sin, Real.sqrt, Real.pi⟩ (20 * (i : ℝ))
          * Translation x y z) ∧
    (Camera.modelMatrices ⟨Real.cos, Real.sin, Real.sqrt, Real.pi⟩).get? 0
      = some (some Ident4) ∧
    Mat4.toMatrix (Ident4 : Mat4 ℝ) = 1 := by
  refine ⟨rfl, ?_, ?_, ?_, ?_, ?_⟩
  · intro each h
    obtain ⟨x, y, z, rfl⟩ := Camera.cubePositions_three each h
    rfl
  · simp [Camera.modelMatrices, Camera.cubePositions]
  · intro i each h
    obtain ⟨x, y, z, rfl⟩ := Camera.cubePositions_three _ (List.get?_mem h)
    obtain ⟨M, hM, hMat⟩ := Camera.modelMatrix_three i x y z
    refine ⟨x, y, z, M, rfl, hM, ?_, hMat⟩
    simp only [List.get?_eq_getElem?] at h
    simp only [Camera.modelMatrices, List.get?_eq_getElem?, List.getElem?_map,
      List.getElem?_enum, h, Option.map_some', hM]
  · simp only [Camera.modelMatrices, Camera.cubePositions, List.enum, List.enumFrom, List.map,
      List.get?, Camera.modelMatrix]
    simp only [Option.some.injEq]
    ext <;> norm_num [Mul4, HomogRotate3D, Translate3D, Ident4]
  · ext r c
    fin_cases r <;> fin_cases c <;> simp [Mat4.toMatrix, Ident4] <;> rfl

/-- Instance of C14: entry 1 of `cubePositions` is `(2, 5, -15)` and its model
matrix is the rotation about Y by `20` times the translation by `(2, 5, -15)`. -/
theorem per_cube_model_matrix_witness :
    ∃ (x y z : ℝ) (M : Mat4 ℝ), ([2.0, 5.0, -15.0] : List ℝ) = [x, y, z] ∧
      Camera.modelMatrix ⟨Real.cos, Real.sin, Real.sqrt, Real.pi⟩ 1 [2.0, 5.0, -15.0] = some M ∧
      (Camera.modelMatrices ⟨Real.cos, Real.sin, Real.sqrt, Real.pi⟩).get? 1 = some (some M) ∧
      M.toMatrix = RotationAboutY ⟨Real.cos, Real.sin, Real.sqrt, Real.pi⟩ (20 * ((1 : ℕ) : ℝ))
        * Translation x y z :=
  per_cube_model_matrix.2.2.2.1 1 [2.0, 5.0, -15.0] rfl

/-! ## Meshes -/

set_option maxRecDepth 100000 in
/-- C15. Mesh size matches the draw calls: in each of the three programs
`cubeVertices` holds exactly 36 vertices of the stride of every attribute
pointer (`36 * 5 = 180` floats in `camera.go` and `lightColor.go`,
`36 * 8 = 288` floats in `lightBasic.go`), every attribute's offset plus size
fits inside the stride, every draw call draws `6 * 2 * 3 = 36` vertices from
vertex 0, and no draw reads past the uploaded buffer. -/
theorem mesh_size_matches_draw_calls :
    ((Camera.cubeVertices : List ℚ).length = 36 * 5 ∧
      (LightColor.cubeVertices : List ℚ).length = 36 * 5 ∧
      (LightBasic.cubeVertices : List ℚ).length = 36 * 8) ∧
    (∀ p ∈ [Camera.mesh, LightColor.mesh, LightBasic.mesh],
      (∀ a ∈ p.attribs, p.bufferBytes = 36 * a.stride ∧ a.fitsStride = true) ∧
      (∀ d ∈ p.draws, d.first = 0 ∧ d.count = 6 * 2 * 3 ∧ d.count = 36) ∧
      p.readsInBounds = true) := by
  decide

set_option maxRecDepth 100000 in
/-- Instance of C15: the draw call of `camera.go` stays inside its buffer of
`180 * 4` bytes. -/
theorem mesh_size_matches_draw_calls_witness :
    Camera.mesh.bufferBytes = 180 * 4 ∧ Camera.mesh.readsInBounds = true :=
  ⟨by decide, (mesh_size_matches_draw_calls.2 Camera.mesh (List.mem_cons_self _ _)).2.2⟩

/-! ## Normals of the lit cube -/

section FaceLemmas

/-- The positions and normal attributes of the six vertices under the
comment `Bottom` of `lightBasic.go` (vertices 0 to 5). -/
theorem LightBasic.face_Bottom :
    LightBasic.position 0 = ⟨-0.5, -0.5, -0.5⟩ ∧
    LightBasic.normal 0 = ⟨0.0, 0.0, -1.0⟩ ∧
    LightBasic.position 1 = ⟨0.5, -0.5, -0.5⟩ ∧
    LightBasic.normal 1 = ⟨0.0, 0.0, -1.0⟩ ∧
    LightBasic.position 2 = ⟨-0.5, -0.5, 0.5⟩ ∧
    LightBasic.normal 2 = ⟨0.0, 0.0, -1.0⟩ ∧
    LightBasic.position 3 = ⟨0.5, -0.5, -0.5⟩ ∧
    LightBasic.normal 3 = ⟨0.0, 0.0, -1.0⟩ ∧
    LightBasic.position 4 = ⟨0.5, -0.5, 0.5⟩ ∧
    LightBasic.normal 4 = ⟨0.0, 0.0, -1.0⟩ ∧
    LightBasic.position 5 = ⟨-0.5, -0.5, 0.5⟩ ∧
    LightBasic.normal 5 = ⟨0.0, 0.0, -1.0⟩ :=
  ⟨rfl, rfl, rfl, rfl, rfl, rfl, rfl, rfl, rfl, rfl, rfl, rfl⟩

/-- The positions and normal attributes of the six vertices under the
comment `Top` of `lightBasic.go` (vertices 6 to 11). -/
theorem LightBasic.face_Top :
    LightBasic.position 6 = ⟨-0.5, 0.5, -0.5⟩ ∧
    LightBasic.normal 6 = ⟨0.0, 0.0, 1.0⟩ ∧
    LightBasic.position 7 = ⟨-0.5, 0.5, 0.5⟩ ∧
    LightBasic.normal 7 = ⟨0.0, 0.0, 1.0⟩ ∧
    LightBasic.position 8 = ⟨0.5, 0.5, -0.5⟩ ∧
    LightBasic.normal 8 = ⟨0.0, 0.0, 1.0⟩ ∧
    LightBasic.position 9 = ⟨0.5, 0.5, -0.5⟩ ∧
    LightBasic.normal 9 = ⟨0.0, 0.0, 1.0⟩ ∧
    LightBasic.position 10 = ⟨-0.5, 0.5, 0.5⟩ ∧
    LightBasic.normal 10 = ⟨0.0, 0.0, 1.0⟩ ∧
    LightBasic.position 11 = ⟨0.5, 0.5, 0.5⟩ ∧
    LightBasic.normal 11 = ⟨0.0, 0.0, 1.0⟩ :=
  ⟨rfl, rfl, rfl, rfl, rfl, rfl, rfl, rfl, rfl, rfl, rfl, rfl⟩

/-- The positions and normal attributes of the six vertices under the
comment `Front` of `lightBasic.go` (vertices 12 to 17). -/
theorem LightBasic.face_Front :
    LightBasic.position 12 = ⟨-0.5, -0.5, 0.5⟩ ∧
    LightBasic.normal 12 = ⟨-1.0, 0.0, 0.0⟩ ∧
    LightBasic.position 13 = ⟨0.5, -0.5, 0.5⟩ ∧
    LightBasic.normal 13 = ⟨-1.0, 0.0, 0.0⟩ ∧
    LightBasic.position 14 = ⟨-0.5, 0.5, 0.5⟩ ∧
    LightBasic.normal 14 = ⟨-1.0, 0.0, 0.0⟩ ∧
    LightBasic.position 15 = ⟨0.5, -0.5, 0.5⟩ ∧
    LightBasic.normal 15 = ⟨-1.0, 0.0, 0.0⟩ ∧
    LightBasic.position 16 = ⟨0.5, 0.5, 0.5⟩ ∧
    LightBasic.normal 16 = ⟨-1.0, 0.0, 0.0⟩ ∧
    LightBasic.position 17 = ⟨-0.5, 0.5, 0.5⟩ ∧
    LightBasic.normal 17 = ⟨-1.0, 0.0, 0.0⟩ :=
  ⟨rfl, rfl, rfl, rfl, rfl, rfl, rfl, rfl, rfl, rfl, rfl, rfl⟩

/-- The positions and normal attributes of the six vertices under the
comment `Back` of `lightBasic.go` (vertices 18 to 23). -/
theorem LightBasic.face_Back :
    LightBasic.position 18 = ⟨-0.5, -0.5, -0.5⟩ ∧
    LightBasic.normal 18 = ⟨1.0, 0.0, 0.0⟩ ∧
    LightBasic.position 19 = ⟨-0.5, 0.5, -0.5⟩ ∧
    LightBasic.normal 19 = ⟨1.0, 0.0, 0.0⟩ ∧
    LightBasic.position 20 = ⟨0.5, -0.5, -0.5⟩ ∧
    LightBasic.normal 20 = ⟨1.0, 0.0, 0.0⟩ ∧
    LightBasic.position 21 = ⟨0.5, -0.5, -0.5⟩ ∧
    LightBasic.normal 21 = ⟨1.0, 0.0, 0.0⟩ ∧
    LightBasic.position 22 = ⟨-0.5, 0.5, -0.5⟩ ∧
    LightBasic.normal 22 = ⟨1.0, 0.0, 0.0⟩ ∧
    LightBasic.position 23 = ⟨0.5, 0.5, -0.5⟩ ∧
    LightBasic.normal 23 = ⟨1.0, 0.0, 0.0⟩ :=
  ⟨rfl, rfl, rfl, rfl, rfl, rfl, rfl, rfl, rfl, rfl, rfl, rfl⟩

/-- The positions and normal attributes of the six vertices under the
comment `Left` of `lightBasic.go` (vertices 24 to 29). -/
theorem LightBasic.face_Left :
    LightBasic.position 24 = ⟨-0.5, -0.5, 0.5⟩ ∧
    LightBasic.normal 24 = ⟨0.0, -1.0, 0.0⟩ ∧
    LightBasic.position 25 = ⟨-0.5, 0.5, -0.5⟩ ∧
    LightBasic.normal 25 = ⟨0.0, -1.0, 0.0⟩ ∧
    LightBasic.position 26 = ⟨-0.5, -0.5, -0.5⟩ ∧
    LightBasic.normal 26 = ⟨0.0, -1.0, 0.0⟩ ∧
    LightBasic.position 27 = ⟨-0.5, -0.5, 0.5⟩ ∧
    LightBasic.normal 27 = ⟨0.0, -1.0, 0.0⟩ ∧
    LightBasic.position 28 = ⟨-0.5, 0.5, 0.5⟩ ∧
    LightBasic.normal 28 = ⟨0.0, -1.0, 0.0⟩ ∧
    LightBasic.position 29 = ⟨-0.5, 0.5, -0.5⟩ ∧
    LightBasic.normal 29 = ⟨0.0, -1.0, 0.0⟩ :=
  ⟨rfl, rfl, rfl, rfl, rfl, rfl, rfl, rfl, rfl, rfl, rfl, rfl⟩

/-- The positions and normal attributes of the six vertices under the
comment `Right` of `lightBasic.go` (vertices 30 to 35). -/
theorem LightBasic.face_Right :
    LightBasic.position 30 = ⟨0.5, -0.5, 0.5⟩ ∧
    LightBasic.normal 30 = ⟨0.0, 1.0, 0.0⟩ ∧
    LightBasic.position 31 = ⟨0.5, -0.5, -0.5⟩ ∧
    LightBasic.normal 31 = ⟨0.0, 1.0, 0.0⟩ ∧
    LightBasic.position 32 = ⟨0.5, 0.5, -0.5⟩ ∧
    LightBasic.normal 32 = ⟨0.0, 1.0, 0.0⟩ ∧
    LightBasic.position 33 = ⟨0.5, -0.5, 0.5⟩ ∧
    LightBasic.normal 33 = ⟨0.0, 1.0, 0.0⟩ ∧
    LightBasic.position 34 = ⟨0.5, 0.5, -0.5⟩ ∧
    LightBasic.normal 34 = ⟨0.0, 1.0, 0.0⟩ ∧
    LightBasic.position 35 = ⟨0.5, 0.5, 0.5⟩ ∧
    LightBasic.normal 35 = ⟨0.0, 1.0, 0.0⟩ :=
  ⟨rfl, rfl, rfl, rfl, rfl, rfl, rfl, rfl, rfl, rfl, rfl, rfl⟩

end FaceLemmas

/-- C16 fails in `lightBasic.go`: for each of the 12 triangles of
`cubeVertices` the normal attribute of each of its vertices has length one but
is not perpendicular to the plane of the triangle, so it is not the outward
normal of the face; for the first `Bottom` triangle, in the plane `y = -0.5`,
the attribute is `(0, 0, -1)` where the outward normal is `(0, -1, 0)`. -/
theorem lit_cube_normals_not_perpendicular :
    (∀ t < 12, ∀ j < 3,
      (LightBasic.normal (3 * t + j)).Dot (LightBasic.normal (3 * t + j)) = 1 ∧
      LightBasic.perpendicularToTriangle (LightBasic.position (3 * t))
        (LightBasic.position (3 * t + 1)) (LightBasic.position (3 * t + 2))
        (LightBasic.normal (3 * t + j)) = false) ∧
    (∀ t < 12, LightBasic.triangleNormalsOutward t = false) ∧
    (LightBasic.position 0 = ⟨-0.5, -0.5, -0.5⟩ ∧ LightBasic.position 1 = ⟨0.5, -0.5, -0.5⟩ ∧
      LightBasic.position 2 = ⟨-0.5, -0.5, 0.5⟩ ∧ LightBasic.normal 0 = ⟨0, 0, -1⟩ ∧
      LightBasic.isOutwardUnitNormal (LightBasic.position 0) (LightBasic.position 1)
        (LightBasic.position 2) ⟨0, -1, 0⟩ = true) := by
  obtain ⟨b0, c0, b1, c1, b2, c2, b3, c3, b4, c4, b5, c5⟩ := LightBasic.face_Bottom
  obtain ⟨b6, c6, b7, c7, b8, c8, b9, c9, b10, c10, b11, c11⟩ := LightBasic.face_Top
  obtain ⟨b12, c12, b13, c13, b14, c14, b15, c15, b16, c16, b17, c17⟩ := LightBasic.face_Front
  obtain ⟨b18, c18, b19, c19, b20, c20, b21, c21, b22, c22, b23, c23⟩ := LightBasic.face_Back
  obtain ⟨b24, c24, b25, c25, b26, c26, b27, c27, b28, c28, b29, c29⟩ := LightBasic.face_Left
  obtain ⟨b30, c30, b31, c31, b32, c32, b33, c33, b34, c34, b35, c35⟩ := LightBasic.face_Right
  have key : ∀ t < 12, ∀ j < 3,
      (LightBasic.normal (3 * t + j)).Dot (LightBasic.normal (3 * t + j)) = 1 ∧
      LightBasic.perpendicularToTriangle (LightBasic.position (3 * t))
        (LightBasic.position (3 * t + 1)) (LightBasic.position (3 * t + 2))
        (LightBasic.normal (3 * t + j)) = false := by
    intro t ht j hj
    interval_cases t <;> interval_cases j <;>
      simp only [Nat.reduceMul, Nat.reduceAdd, add_zero, b0, c0, b1, c1, b2, c2, b3, c3, b4, c4,
        b5, c5, b6, c6, b7, c7, b8, c8, b9, c9, b10, c10, b11, c11, b12, c12, b13, c13, b14,
        c14, b15, c15, b16, c16, b17, c17, b18, c18, b19, c19, b20, c20, b21, c21, b22, c22,
        b23, c23, b24, c24, b25, c25, b26, c26, b27, c27, b28, c28, b29, c29, b30, c30, b31,
        c31, b32, c32, b33, c33, b34, c34, b35, c35, LightBasic.perpendicularToTriangle,
        Vec3.Sub, Vec3.Dot] <;>
      norm_num
  refine ⟨key, ?_, ?_⟩
  · intro t ht
    have h0 := (key t ht 0 (by norm_num)).2
    simp only [add_zero] at h0
    simp [LightBasic.triangleNormalsOutward, LightBasic.isOutwardUnitNormal, List.range_succ, h0]
  · refine ⟨b0, b1, b2, ?_, ?_⟩
    · rw [c0]; norm_num
    · simp only [b0, b1, b2, LightBasic.isOutwardUnitNormal, LightBasic.perpendicularToTriangle,
        Vec3.Sub, Vec3.Dot]
      norm_num

/-! ## The camera at the float32 value of π -/

section Pi32Lemmas

/-- Whatever the constant of the degree conversion, the vector built from yaw
and pitch has length one. -/
theorem frontRaw_Len_any (p yaw pitch : ℝ) :
    (frontRaw ⟨Real.cos, Real.sin, Real.sqrt, p⟩ yaw pitch).Len
      ⟨Real.cos, Real.sin, Real.sqrt, p⟩ = 1 := by
  have h1 := Real.cos_sq_add_sin_sq (yaw * p / 180)
  have h2 := Real.cos_sq_add_sin_sq (pitch * p / 180)
  have hs : Real.cos (yaw * p / 180) * Real.cos (pitch * p / 180) *
        (Real.cos (yaw * p / 180) * Real.cos (pitch * p / 180)) +
      Real.sin (pitch * p / 180) * Real.sin (pitch * p / 180) +
      Real.sin (yaw * p / 180) * Real.cos (pitch * p / 180) *
        (Real.sin (yaw * p / 180) * Real.cos (pitch * p / 180)) = 1 := by
    linear_combination (Real.cos (pitch * p / 180)) ^ 2 * h1 + h2
  simp only [Vec3.Len, frontRaw, DegToRad]
  rw [hs]
  exact Real.sqrt_one

/-- Whatever the constant of the degree conversion, normalising the vector
built from yaw and pitch returns it. -/
theorem Normalize_frontRaw_any (p yaw pitch : ℝ) :
    (frontRaw ⟨Real.cos, Real.sin, Real.sqrt, p⟩ yaw pitch).Normalize
      ⟨Real.cos, Real.sin, Real.sqrt, p⟩ =
    frontRaw ⟨Real.cos, Real.sin, Real.sqrt, p⟩ yaw pitch := by
  have h := frontRaw_Len_any p yaw pitch
  unfold Vec3.Normalize
  rw [h]
  ext <;> simp

/-- Normalising a vector other than zero gives a vector of length one. -/
theorem Vec3.Len_Normalize (p : ℝ) (v : Vec3 ℝ) (hv : v ≠ ⟨0, 0, 0⟩) :
    (v.Normalize ⟨Real.cos, Real.sin, Real.sqrt, p⟩).Len
      ⟨Real.cos, Real.sin, Real.sqrt, p⟩ = 1 := by
  have hn := Vec3.sq_pos_of_ne_zero v hv
  have hL : 0 < Real.sqrt (v.x * v.x + v.y * v.y + v.z * v.z) := Real.sqrt_pos.mpr hn
  have hLL : Real.sqrt (v.x * v.x + v.y * v.y + v.z * v.z) *
      Real.sqrt (v.x * v.x + v.y * v.y + v.z * v.z) = v.x * v.x + v.y * v.y + v.z * v.z :=
    Real.mul_self_sqrt hn.le
  simp only [Vec3.Normalize, Vec3.Len]
  have key : v.x * (1 / Real.sqrt (v.x * v.x + v.y * v.y + v.z * v.z)) *
        (v.x * (1 / Real.sqrt (v.x * v.x + v.y * v.y + v.z * v.z))) +
      v.y * (1 / Real.sqrt (v.x * v.x + v.y * v.y + v.z * v.z)) *
        (v.y * (1 / Real.sqrt (v.x * v.x + v.y * v.y + v.z * v.z))) +
      v.z * (1 / Real.sqrt (v.x * v.x + v.y * v.y + v.z * v.z)) *
        (v.z * (1 / Real.sqrt (v.x * v.x + v.y * v.y + v.z * v.z))) = 1 := by
    field_simp
  rw [key]
  exact Real.sqrt_one

/-- The normalised cross product of two vectors is orthogonal to both. -/
theorem Vec3.Dot_Normalize_Cross (p : ℝ) (a b : Vec3 ℝ) :
    ((a.Cross b).Normalize ⟨Real.cos, Real.sin, Real.sqrt, p⟩).Dot a = 0 ∧
    ((a.Cross b).Normalize ⟨Real.cos, Real.sin, Real.sqrt, p⟩).Dot b = 0 := by
  simp only [Vec3.Normalize, Vec3.Dot, Vec3.Cross]
  constructor <;> ring

/-- At a rational number of degrees the cosine of the converted angle is not
zero: the angle is a rational number and π is irrational. -/
theorem cos_DegToRad_ne_zero (q : ℚ) :
    Real.cos (DegToRad ⟨Real.cos, Real.sin, Real.sqrt, (Pi32 : ℝ)⟩ (q : ℝ)) ≠ 0 := by
  intro h
  obtain ⟨k, hk⟩ := Real.cos_eq_zero_iff.mp h
  have hk0 : (2 * (k : ℝ) + 1) ≠ 0 := by
    have : (2 * k + 1 : ℤ) ≠ 0 := by omega
    exact_mod_cast this
  have hpi : Real.pi = ((q * (13176795 / 4194304) / 180 * 2 / (2 * k + 1) : ℚ) : ℝ) := by
    simp only [DegToRad, Pi32] at hk
    push_cast
    field_simp
    field_simp at hk
    linarith
  exact irrational_pi.ne_rat _ hpi

/-- The float32 value of π is within `1e-6` of π. -/
theorem abs_pi_sub_Pi32 : |Real.pi - (Pi32 : ℝ)| < 1e-6 := by
  have h1 := Real.pi_gt_d6
  have h2 := Real.pi_lt_d6
  rw [abs_lt]
  constructor <;> norm_num [Pi32] at * <;> linarith

/-- The cosine of half the float32 value of π is below `1e-6` in size. -/
theorem abs_cos_half_Pi32 : |Real.cos ((Pi32 : ℝ) / 2)| < 1e-6 := by
  have e : Real.cos ((Pi32 : ℝ) / 2) = Real.sin ((Real.pi - Pi32) / 2) := by
    rw [← Real.sin_pi_div_two_sub]
    congr 1
    ring
  rw [e]
  have h := abs_pi_sub_Pi32
  have h2 : |(Real.pi - (Pi32 : ℝ)) / 2| < 1e-6 := by
    rw [abs_div, abs_two]
    have := abs_nonneg (Real.pi - (Pi32 : ℝ))
    linarith
  exact lt_of_le_of_lt Real.abs_sin_le_abs h2

/-- The sine of half the float32 value of π is within `1e-6` of one. -/
theorem abs_sin_half_Pi32_sub_one : |Real.sin ((Pi32 : ℝ) / 2) - 1| < 1e-6 := by
  have hc := abs_cos_half_Pi32
  have hsq := Real.sin_sq_add_cos_sq ((Pi32 : ℝ) / 2)
  have hle : Real.sin ((Pi32 : ℝ) / 2) ≤ 1 := Real.sin_le_one _
  have hpos : 0 < Real.sin ((Pi32 : ℝ) / 2) := by
    apply Real.sin_pos_of_pos_of_lt_pi
    · norm_num [Pi32]
    · have := Real.pi_gt_three
      norm_num [Pi32]
      linarith
  have hc2 : Real.cos ((Pi32 : ℝ) / 2) ^ 2 < 1e-6 := by
    have h0 := abs_nonneg (Real.cos ((Pi32 : ℝ) / 2))
    have : |Real.cos ((Pi32 : ℝ) / 2)| ^ 2 < 1e-6 := by nlinarith
    rwa [sq_abs] at this
  rw [abs_lt]
  constructor
  · nlinarith
  · linarith

end Pi32Lemmas

section ReachableLemmas

/-- At rational yaw and pitch the vector built from them is not parallel to
`(0, 1, 0)`: its x component is a product of two cosines, neither zero. -/
theorem cross_frontRaw_ne_zero (qy qp : ℚ) :
    (frontRaw ⟨Real.cos, Real.sin, Real.sqrt, (Pi32 : ℝ)⟩ (qy : ℝ) (qp : ℝ)).Cross ⟨0, 1, 0⟩
      ≠ ⟨0, 0, 0⟩ := by
  intro h
  have hz := congrArg Vec3.z h
  simp only [Vec3.Cross, frontRaw, mul_one, mul_zero, sub_zero] at hz
  rcases mul_eq_zero.mp hz with h1 | h1
  · exact cos_DegToRad_ne_zero qy h1
  · exact cos_DegToRad_ne_zero qp h1

/-- The initial globals are regular. -/
theorem initGlobals_Regular : (initGlobals : Globals ℝ).Regular := by
  refine ⟨⟨-90, ?_⟩, ⟨0, ?_⟩, ⟨0, ?_⟩, ⟨0, ?_⟩, rfl, ?_⟩
  · simp [initGlobals]
  · simp [initGlobals]
  · simp [initGlobals]
  · simp [initGlobals]
  · intro h
    have hx := congrArg Vec3.x h
    simp [initGlobals, Vec3.Cross] at hx

/-- One cursor event with rational coordinates keeps the globals regular. -/
theorem mouseMoveCallback_Regular (w : Window) (x y : ℚ) (g : Globals ℝ) (hg : g.Regular) :
    (mouseMoveCallback ⟨Real.cos, Real.sin, Real.sqrt, (Pi32 : ℝ)⟩ w (x : ℝ) (y : ℝ) g).Regular := by
  obtain ⟨⟨qy, hqy⟩, ⟨qp, hqp⟩, ⟨qX, hqX⟩, ⟨qY, hqY⟩, hup, hcross⟩ := hg
  cases hb : w.buttonDown MouseButton.MouseButtonLeft
  · simp only [mouseMoveCallback, Window.GetMouseButton, hb, Bool.false_eq_true, if_false,
      reduceCtorEq, if_true]
    exact ⟨⟨qy, hqy⟩, ⟨qp, hqp⟩, ⟨qX, hqX⟩, ⟨qY, hqY⟩, hup, hcross⟩
  · cases hf : g.firstMouse
    · have e1 : g.yaw + ((x : ℝ) - g.lastX) * 0.1 = ((qy + (x - qX) * (1 / 10) : ℚ) : ℝ) := by
        rw [hqy, hqX]; push_cast; ring
      have e2 : g.pitch + (g.lastY - (y : ℝ)) * 0.1 = ((qp + (qY - y) * (1 / 10) : ℚ) : ℝ) := by
        rw [hqp, hqY]; push_cast; ring
      simp only [mouseMoveCallback, Window.GetMouseButton, hb, hf, if_true, Bool.false_eq_true,
        if_false, Globals.Regular, e1, e2, Normalize_frontRaw_any, hup]
      exact ⟨⟨_, rfl⟩, ⟨_, rfl⟩, ⟨x, rfl⟩, ⟨y, rfl⟩, trivial, cross_frontRaw_ne_zero _ _⟩
    · have e1 : g.yaw + ((x : ℝ) - (x : ℝ)) * 0.1 = ((qy : ℚ) : ℝ) := by
        rw [hqy]; ring
      have e2 : g.pitch + ((y : ℝ) - (y : ℝ)) * 0.1 = ((qp : ℚ) : ℝ) := by
        rw [hqp]; ring
      simp only [mouseMoveCallback, Window.GetMouseButton, hb, hf, if_true,
        Globals.Regular, e1, e2, Normalize_frontRaw_any, hup]
      exact ⟨⟨_, rfl⟩, ⟨_, rfl⟩, ⟨x, rfl⟩, ⟨y, rfl⟩, trivial, cross_frontRaw_ne_zero _ _⟩

/-- Any sequence of cursor events with rational coordinates keeps the globals
regular. -/
theorem handleCursorEvents_Regular (es : List (CursorEvent ℚ)) (g : Globals ℝ)
    (hg : g.Regular) :
    (handleCursorEvents ⟨Real.cos, Real.sin, Real.sqrt, (Pi32 : ℝ)⟩ g
      (es.map CursorEvent.cast)).Regular := by
  induction es generalizing g with
  | nil => exact hg
  | cons e es ih => exact ih _ (mouseMoveCallback_Regular e.w e.xpos e.ypos g hg)

/-- The globals after one cursor event at `(0, y)` with the left button
pressed, from the initial state, whatever the constant of the degree
conversion. -/
theorem press_from_init (p y : ℝ) :
    (handleCursorEvents ⟨Real.cos, Real.sin, Real.sqrt, p⟩ (initGlobals : Globals ℝ)
      [⟨mouseWindow true, 0, y⟩]).pitch = -(0.1 * y) ∧
    (handleCursorEvents ⟨Real.cos, Real.sin, Real.sqrt, p⟩ (initGlobals : Globals ℝ)
      [⟨mouseWindow true, 0, y⟩]).cameraUp = ⟨0, 1, 0⟩ ∧
    (handleCursorEvents ⟨Real.cos, Real.sin, Real.sqrt, p⟩ (initGlobals : Globals ℝ)
      [⟨mouseWindow true, 0, y⟩]).cameraFront
      = frontRaw ⟨Real.cos, Real.sin, Real.sqrt, p⟩ (-90) (-(0.1 * y)) := by
  have e1 : (-90 : ℝ) + (0 - 0) * 0.1 = -90 := by norm_num
  have e2 : (0 : ℝ) + (0 - y) * 0.1 = -(0.1 * y) := by ring
  simp only [handleCursorEvents, mouseMoveCallback, Window.GetMouseButton, mouseWindow,
    initGlobals, Bool.false_eq_true, if_false, e1, e2, Normalize_frontRaw_any]
  simp

/-- The vector built from yaw `-90` and pitch `0` at the float32 value of π:
`(cos (Pi32 / 2), 0, -sin (Pi32 / 2))`. -/
theorem frontRaw_init_Pi32 :
    frontRaw ⟨Real.cos, Real.sin, Real.sqrt, (Pi32 : ℝ)⟩ (-90) 0
      = ⟨Real.cos ((Pi32 : ℝ) / 2), 0, -Real.sin ((Pi32 : ℝ) / 2)⟩ := by
  have e : (-90 : ℝ) * (Pi32 : ℝ) / 180 = -((Pi32 : ℝ) / 2) := by ring
  simp only [frontRaw, DegToRad, e]
  simp

/-- The vector built from yaw `-90` and pitch `90` at the float32 value of π. -/
theorem frontRaw_up_Pi32 :
    frontRaw ⟨Real.cos, Real.sin, Real.sqrt, (Pi32 : ℝ)⟩ (-90) 90
      = ⟨Real.cos ((Pi32 : ℝ) / 2) * Real.cos ((Pi32 : ℝ) / 2), Real.sin ((Pi32 : ℝ) / 2),
          -Real.sin ((Pi32 : ℝ) / 2) * Real.cos ((Pi32 : ℝ) / 2)⟩ := by
  have e : (-90 : ℝ) * (Pi32 : ℝ) / 180 = -((Pi32 : ℝ) / 2) := by ring
  have e2 : (90 : ℝ) * (Pi32 : ℝ) / 180 = (Pi32 : ℝ) / 2 := by ring
  simp only [frontRaw, DegToRad, e, e2]
  simp

/-- The cosine of half the float32 value of π is not zero. -/
theorem cos_half_Pi32_ne_zero : Real.cos ((Pi32 : ℝ) / 2) ≠ 0 := by
  have h := cos_DegToRad_ne_zero 90
  have e : ((90 : ℚ) : ℝ) * (Pi32 : ℝ) / 180 = (Pi32 : ℝ) / 2 := by push_cast; ring
  simpa only [DegToRad, e] using h

end ReachableLemmas

/-! ## The strafe vector, the initial orientation and unbounded pitch -/

/-- C7. Strafe vector: in every camera state reachable from the initial state
through cursor events (any button states, any float coordinates, which are
rational numbers; pitch is unclamped) `cameraFront x cameraUp` is not the zero
vector, and the strafe vector `normalize (cameraFront x cameraUp)` that
`processInput` uses for the A and D keys is orthogonal to `cameraUp`,
orthogonal to `cameraFront`, and has length one. -/
theorem strafe_vector_orthonormal_reachable (es : List (CursorEvent ℚ)) :
    (handleCursorEvents ⟨Real.cos, Real.sin, Real.sqrt, (Pi32 : ℝ)⟩ (initGlobals : Globals ℝ)
        (es.map CursorEvent.cast)).cameraFront.Cross
      (handleCursorEvents ⟨Real.cos, Real.sin, Real.sqrt, (Pi32 : ℝ)⟩ (initGlobals : Globals ℝ)
        (es.map CursorEvent.cast)).cameraUp ≠ ⟨0, 0, 0⟩ ∧
    (cameraRight ⟨Real.cos, Real.sin, Real.sqrt, (Pi32 : ℝ)⟩
      (handleCursorEvents ⟨Real.cos, Real.sin, Real.sqrt, (Pi32 : ℝ)⟩ (initGlobals : Globals ℝ)
        (es.map CursorEvent.cast))).Dot
      (handleCursorEvents ⟨Real.cos, Real.sin, Real.sqrt, (Pi32 : ℝ)⟩ (initGlobals : Globals ℝ)
        (es.map CursorEvent.cast)).cameraUp = 0 ∧
    (cameraRight ⟨Real.cos, Real.sin, Real.sqrt, (Pi32 : ℝ)⟩
      (handleCursorEvents ⟨Real.cos, Real.sin, Real.sqrt, (Pi32 : ℝ)⟩ (initGlobals : Globals ℝ)
        (es.map CursorEvent.cast))).Dot
      (handleCursorEvents ⟨Real.cos, Real.sin, Real.sqrt, (Pi32 : ℝ)⟩ (initGlobals : Globals ℝ)
        (es.map CursorEvent.cast)).cameraFront = 0 ∧
    (cameraRight ⟨Real.cos, Real.sin, Real.sqrt, (Pi32 : ℝ)⟩
      (handleCursorEvents ⟨Real.cos, Real.sin, Real.sqrt, (Pi32 : ℝ)⟩ (initGlobals : Globals ℝ)
        (es.map CursorEvent.cast))).Len ⟨Real.cos, Real.sin, Real.sqrt, (Pi32 : ℝ)⟩ = 1 := by
  have hreg := handleCursorEvents_Regular es initGlobals initGlobals_Regular
  have hcross := hreg.2.2.2.2.2
  exact ⟨hcross, (Vec3.Dot_Normalize_Cross _ _ _).2, (Vec3.Dot_Normalize_Cross _ _ _).1,
    Vec3.Len_Normalize _ _ hcross⟩

/-- Instance of C7 at pitch 90: after one cursor event at `(0, -900)` with the
left button pressed the strafe vector has length one. -/
theorem strafe_vector_orthonormal_reachable_witness :
    (cameraRight ⟨Real.cos, Real.sin, Real.sqrt, (Pi32 : ℝ)⟩
      (handleCursorEvents ⟨Real.cos, Real.sin, Real.sqrt, (Pi32 : ℝ)⟩ (initGlobals : Globals ℝ)
        [CursorEvent.cast ⟨mouseWindow true, 0, -900⟩])).Len
      ⟨Real.cos, Real.sin, Real.sqrt, (Pi32 : ℝ)⟩ = 1 :=
  (strafe_vector_orthonormal_reachable [⟨mouseWindow true, 0, -900⟩]).2.2.2

/-- C8, as stated, fails: at the float32 value of π the front vector derived
from yaw `-90` and pitch `0` has a non-zero x component, so it is not
`(0, 0, -1)`, and a cursor event with the left button pressed and zero delta
in the initial state changes `cameraFront`. -/
theorem initial_orientation_not_exact :
    (frontRaw ⟨Real.cos, Real.sin, Real.sqrt, (Pi32 : ℝ)⟩ (-90) 0).Normalize
      ⟨Real.cos, Real.sin, Real.sqrt, (Pi32 : ℝ)⟩ ≠ ⟨0, 0, -1⟩ ∧
    (mouseMoveCallback ⟨Real.cos, Real.sin, Real.sqrt, (Pi32 : ℝ)⟩ (mouseWindow true) 0 0
      (initGlobals : Globals ℝ)).cameraFront ≠ (initGlobals : Globals ℝ).cameraFront := by
  have hN : (frontRaw ⟨Real.cos, Real.sin, Real.sqrt, (Pi32 : ℝ)⟩ (-90) 0).Normalize
      ⟨Real.cos, Real.sin, Real.sqrt, (Pi32 : ℝ)⟩ ≠ ⟨0, 0, -1⟩ := by
    rw [Normalize_frontRaw_any, frontRaw_init_Pi32]
    intro h
    exact cos_half_Pi32_ne_zero (congrArg Vec3.x h)
  refine ⟨hN, ?_⟩
  have e1 : (-90 : ℝ) + (0 - 0) * 0.1 = -90 := by norm_num
  have e2 : (0 : ℝ) + (0 - 0) * 0.1 = 0 := by norm_num
  simp only [mouseMoveCallback, Window.GetMouseButton, mouseWindow, initGlobals,
    Bool.false_eq_true, if_false, e1, e2]
  simpa using hN

/-- C8, amended. The front vector that the mouse-look conversion derives from
yaw `-90` and pitch `0` equals `(0, 0, -1)`, the declared initial
`cameraFront` (and `-90`, `0` are the declared initial yaw and pitch), within
`1e-5` in each component; so a cursor event with the left button pressed and
zero delta in the initial state leaves `cameraFront` within `1e-5` of its
value in each component. -/
theorem initial_orientation_within_tolerance (w : Window)
    (hb : w.buttonDown MouseButton.MouseButtonLeft = true) :
    ((initGlobals : Globals ℝ).yaw = -90 ∧ (initGlobals : Globals ℝ).pitch = 0 ∧
      (initGlobals : Globals ℝ).cameraFront = ⟨0, 0, -1⟩) ∧
    (|((frontRaw ⟨Real.cos, Real.sin, Real.sqrt, (Pi32 : ℝ)⟩ (-90) 0).Normalize
        ⟨Real.cos, Real.sin, Real.sqrt, (Pi32 : ℝ)⟩).x - 0| < 1e-5 ∧
      |((frontRaw ⟨Real.cos, Real.sin, Real.sqrt, (Pi32 : ℝ)⟩ (-90) 0).Normalize
        ⟨Real.cos, Real.sin, Real.sqrt, (Pi32 : ℝ)⟩).y - 0| < 1e-5 ∧
      |((frontRaw ⟨Real.cos, Real.sin, Real.sqrt, (Pi32 : ℝ)⟩ (-90) 0).Normalize
        ⟨Real.cos, Real.sin, Real.sqrt, (Pi32 : ℝ)⟩).z - (-1)| < 1e-5) ∧
    (|(mouseMoveCallback ⟨Real.cos, Real.sin, Real.sqrt, (Pi32 : ℝ)⟩ w
          (initGlobals : Globals ℝ).lastX (initGlobals : Globals ℝ).lastY
          initGlobals).cameraFront.x - (initGlobals : Globals ℝ).cameraFront.x| < 1e-5 ∧
      |(mouseMoveCallback ⟨Real.cos, Real.sin, Real.sqrt, (Pi32 : ℝ)⟩ w
          (initGlobals : Globals ℝ).lastX (initGlobals : Globals ℝ).lastY
          initGlobals).cameraFront.y - (initGlobals : Globals ℝ).cameraFront.y| < 1e-5 ∧
      |(mouseMoveCallback ⟨Real.cos, Real.sin, Real.sqrt, (Pi32 : ℝ)⟩ w
          (initGlobals : Globals ℝ).lastX (initGlobals : Globals ℝ).lastY
          initGlobals).cameraFront.z - (initGlobals : Globals ℝ).cameraFront.z| < 1e-5) := by
  have hc := abs_cos_half_Pi32
  have hs := abs_sin_half_Pi32_sub_one
  have hx : |Real.cos ((Pi32 : ℝ) / 2) - 0| < 1e-5 := by
    rw [sub_zero]
    exact lt_trans hc (by norm_num)
  have hy : |(0 : ℝ) - 0| < 1e-5 := by norm_num
  have hz : |-Real.sin ((Pi32 : ℝ) / 2) - (-1)| < 1e-5 := by
    have e : -Real.sin ((Pi32 : ℝ) / 2) - (-1) = -(Real.sin ((Pi32 : ℝ) / 2) - 1) := by ring
    rw [e, abs_neg]
    exact lt_trans hs (by norm_num)
  have hN : (frontRaw ⟨Real.cos, Real.sin, Real.sqrt, (Pi32 : ℝ)⟩ (-90) 0).Normalize
      ⟨Real.cos, Real.sin, Real.sqrt, (Pi32 : ℝ)⟩
      = ⟨Real.cos ((Pi32 : ℝ) / 2), 0, -Real.sin ((Pi32 : ℝ) / 2)⟩ := by
    rw [Normalize_frontRaw_any, frontRaw_init_Pi32]
  refine ⟨⟨rfl, rfl, rfl⟩, ?_, ?_⟩
  · rw [hN]
    exact ⟨hx, hy, hz⟩
  · have e1 : (-90 : ℝ) + (0 - 0) * 0.1 = -90 := by norm_num
    have e2 : (0 : ℝ) + (0 - 0) * 0.1 = 0 := by norm_num
    simp only [mouseMoveCallback, Window.GetMouseButton, hb, if_true, initGlobals,
      Bool.false_eq_true, if_false, e1, e2, hN]
    exact ⟨hx, hy, hz⟩

/-- Instance of C8 as amended: for a window with only the left button held,
the x component of `cameraFront` after a zero-delta event is within `1e-5` of
its initial value `0`. -/
theorem initial_orientation_within_tolerance_witness :
    |(mouseMoveCallback ⟨Real.cos, Real.sin, Real.sqrt, (Pi32 : ℝ)⟩ (mouseWindow true)
        (initGlobals : Globals ℝ).lastX (initGlobals : Globals ℝ).lastY
        initGlobals).cameraFront.x - (initGlobals : Globals ℝ).cameraFront.x| < 1e-5 :=
  (initial_orientation_within_tolerance (mouseWindow true) rfl).2.2.1

/-- C11, as stated, fails in its last part: after one cursor event at
`(0, -900)` with the left button pressed pitch is `90`, but at the float32
value of π the recomputed `cameraFront` is not `(0, 1, 0)`, is not equal to
`cameraUp`, and `cameraFront x cameraUp` is not the zero vector. -/
theorem front_not_parallel_at_pitch_90 :
    (handleCursorEvents ⟨Real.cos, Real.sin, Real.sqrt, (Pi32 : ℝ)⟩ (initGlobals : Globals ℝ)
      [⟨mouseWindow true, 0, -900⟩]).pitch = 90 ∧
    (handleCursorEvents ⟨Real.cos, Real.sin, Real.sqrt, (Pi32 : ℝ)⟩ (initGlobals : Globals ℝ)
      [⟨mouseWindow true, 0, -900⟩]).cameraFront ≠ ⟨0, 1, 0⟩ ∧
    (handleCursorEvents ⟨Real.cos, Real.sin, Real.sqrt, (Pi32 : ℝ)⟩ (initGlobals : Globals ℝ)
      [⟨mouseWindow true, 0, -900⟩]).cameraFront
      ≠ (handleCursorEvents ⟨Real.cos, Real.sin, Real.sqrt, (Pi32 : ℝ)⟩
          (initGlobals : Globals ℝ) [⟨mouseWindow true, 0, -900⟩]).cameraUp ∧
    (handleCursorEvents ⟨Real.cos, Real.sin, Real.sqrt, (Pi32 : ℝ)⟩ (initGlobals : Globals ℝ)
      [⟨mouseWindow true, 0, -900⟩]).cameraFront.Cross
      (handleCursorEvents ⟨Real.cos, Real.sin, Real.sqrt, (Pi32 : ℝ)⟩ (initGlobals : Globals ℝ)
        [⟨mouseWindow true, 0, -900⟩]).cameraUp ≠ ⟨0, 0, 0⟩ := by
  obtain ⟨hp, hup, hfront⟩ := press_from_init (Pi32 : ℝ) (-900)
  have e : -(0.1 * (-900 : ℝ)) = 90 := by norm_num
  rw [e] at hp hfront
  rw [frontRaw_up_Pi32] at hfront
  have hc := cos_half_Pi32_ne_zero
  have hne : (⟨Real.cos ((Pi32 : ℝ) / 2) * Real.cos ((Pi32 : ℝ) / 2),
      Real.sin ((Pi32 : ℝ) / 2),
      -Real.sin ((Pi32 : ℝ) / 2) * Real.cos ((Pi32 : ℝ) / 2)⟩ : Vec3 ℝ) ≠ ⟨0, 1, 0⟩ := by
    intro h
    exact mul_ne_zero hc hc (congrArg Vec3.x h)
  rw [hfront, hup]
  refine ⟨hp, hne, hne, ?_⟩
  intro h
  have hz := congrArg Vec3.z h
  simp only [Vec3.Cross, mul_one, mul_zero, sub_zero] at hz
  exact mul_ne_zero hc hc hz

/-- C11, amended. Pitch is unbounded: for every real bound `B` some finite
sequence of cursor events from the initial state ends with `pitch > B`, and
some with `pitch < -B`; and `pitch = 90` is reachable, where the recomputed
`cameraFront` is within `1e-5` of `(0, 1, 0)` in each component, yet
`cameraFront x cameraUp` is not the zero vector. -/
theorem pitch_unbounded_near_vertical :
    (∀ B : ℝ, ∃ es : List (CursorEvent ℝ),
      B < (handleCursorEvents ⟨Real.cos, Real.sin, Real.sqrt, (Pi32 : ℝ)⟩
        (initGlobals : Globals ℝ) es).pitch) ∧
    (∀ B : ℝ, ∃ es : List (CursorEvent ℝ),
      (handleCursorEvents ⟨Real.cos, Real.sin, Real.sqrt, (Pi32 : ℝ)⟩
        (initGlobals : Globals ℝ) es).pitch < -B) ∧
    (∃ es : List (CursorEvent ℝ),
      (handleCursorEvents ⟨Real.cos, Real.sin, Real.sqrt, (Pi32 : ℝ)⟩
        (initGlobals : Globals ℝ) es).pitch = 90 ∧
      |(handleCursorEvents ⟨Real.cos, Real.sin, Real.sqrt, (Pi32 : ℝ)⟩
        (initGlobals : Globals ℝ) es).cameraFront.x - 0| < 1e-5 ∧
      |(handleCursorEvents ⟨Real.cos, Real.sin, Real.sqrt, (Pi32 : ℝ)⟩
        (initGlobals : Globals ℝ) es).cameraFront.y - 1| < 1e-5 ∧
      |(handleCursorEvents ⟨Real.cos, Real.sin, Real.sqrt, (Pi32 : ℝ)⟩
        (initGlobals : Globals ℝ) es).cameraFront.z - 0| < 1e-5 ∧
      (handleCursorEvents ⟨Real.cos, Real.sin, Real.sqrt, (Pi32 : ℝ)⟩
        (initGlobals : Globals ℝ) es).cameraFront.Cross
        (handleCursorEvents ⟨Real.cos, Real.sin, Real.sqrt, (Pi32 : ℝ)⟩
          (initGlobals : Globals ℝ) es).cameraUp ≠ ⟨0, 0, 0⟩) := by
  refine ⟨fun B => ⟨[⟨mouseWindow true, 0, -(10 * (B + 1))⟩], ?_⟩,
    fun B => ⟨[⟨mouseWindow true, 0, 10 * (B + 1)⟩], ?_⟩,
    ⟨[⟨mouseWindow true, 0, -900⟩], ?_⟩⟩
  · rw [(press_from_init _ _).1]
    norm_num
    linarith
  · rw [(press_from_init _ _).1]
    norm_num
    linarith
  · obtain ⟨hp, hup, hfront⟩ := press_from_init (Pi32 : ℝ) (-900)
    have e : -(0.1 * (-900 : ℝ)) = 90 := by norm_num
    rw [e] at hp hfront
    rw [frontRaw_up_Pi32] at hfront
    have hc := abs_cos_half_Pi32
    have hs := abs_sin_half_Pi32_sub_one
    have hcne := cos_half_Pi32_ne_zero
    have hc0 := abs_nonneg (Real.cos ((Pi32 : ℝ) / 2))
    have hs1 : |Real.sin ((Pi32 : ℝ) / 2)| ≤ 1 := Real.abs_sin_le_one _
    rw [hfront, hup]
    refine ⟨hp, ?_, ?_, ?_, ?_⟩
    · rw [sub_zero, abs_mul]
      have h1 : |Real.cos ((Pi32 : ℝ) / 2)| < 1 := lt_trans hc (by norm_num)
      nlinarith
    · exact lt_trans hs (by norm_num)
    · rw [sub_zero, abs_mul, abs_neg]
      have : |Real.sin ((Pi32 : ℝ) / 2)| * |Real.cos ((Pi32 : ℝ) / 2)|
          ≤ 1 * |Real.cos ((Pi32 : ℝ) / 2)| := mul_le_mul_of_nonneg_right hs1 hc0
      have h2 : |Real.cos ((Pi32 : ℝ) / 2)| < 1e-5 := lt_trans hc (by norm_num)
      linarith
    · intro h
      have hz := congrArg Vec3.z h
      simp only [Vec3.Cross, mul_one, mul_zero, sub_zero] at hz
      exact mul_ne_zero hcne hcne hz

end OpenGLGo
